import Mathlib

/-!
Formal model of the osintukraine/osint-mcp-server protocol adapter.

The server (index.ts, v2 revision) declares a static `tools` catalog of 71
tool descriptors, a `handleToolCall` switch dispatching each tool name to
one `OsintApiClient` method, and registers exactly two MCP request
handlers (list-tools and call-tool).  The API client (api-client.ts, v2
revision) builds one HTTP request per method: a fixed path (with JS
template-literal interpolation of id arguments), optional query
parameters, and a header set computed once from the configuration.

Modelling conventions:
* JavaScript runtime values occurring in argument bags are modelled by
  `JsVal` (undefined, null, string, number, boolean).  TypeScript `as`
  casts in the dispatcher are unchecked at runtime, so dispatcher reads
  pass the raw `JsVal` through; template-literal interpolation and
  `String(value)` are modelled by `jsString`.
* An argument bag (`Record<string, unknown>`) is a key/value list; reading
  a missing property yields `JsVal.undef`, as in JavaScript.
* A client call is modelled by the `ApiRequest` it issues (method, path,
  raw query-parameter object).  The `fetch` response is an input
  (`HttpResponse`); the shared non-2xx check of `get`/`post` is
  `apiFetch`.  `response.json()` followed by `JSON.stringify(result,
  null, 2)` is opaque to every claim and is modelled by `renderResult`.
* Static prose (tool descriptions, per-property types) is omitted from
  `ToolDescriptor`; the claims concern only names, property keys and
  required lists.
-/

/-- A JavaScript runtime value as it can occur in a tool argument bag
(restricted to the primitive values the adapter manipulates). -/
inductive JsVal where
  | undef
  | null
  | str (s : String)
  | num (n : Int)
  | bool (b : Bool)
deriving DecidableEq, Repr

/-- JavaScript string conversion `String(value)`, also used by template
literals: `String(undefined) = "undefined"`, `String(null) = "null"`. -/
def jsString : JsVal → String
  | .undef => "undefined"
  | .null => "null"
  | .str s => s
  | .num n => toString n
  | .bool b => if b then "true" else "false"

/-- An untyped tool argument bag (`Record<string, unknown>`). -/
abbrev Args := List (String × JsVal)

/-- Property access `args.k` on an argument bag: the stored value, or
`undefined` when the key is absent. -/
def getArg (args : Args) (k : String) : JsVal :=
  match args.find? (fun p => p.1 == k) with
  | some p => p.2
  | none => .undef

inductive HttpMethod where
  | GET
  | POST
deriving DecidableEq, Repr

/-- The one outbound HTTP request a client method issues: verb, path (after
template-literal interpolation) and the raw query-parameter object handed
to `get` (empty for `post` and for parameterless `get` calls). -/
structure ApiRequest where
  method : HttpMethod
  path : String
  params : List (String × JsVal)
deriving DecidableEq, Repr

instance : DecidableEq (Except String ApiRequest) := fun a b =>
  match a, b with
  | .ok x, .ok y =>
      if h : x = y then .isTrue (by rw [h])
      else .isFalse (by intro c; injection c; contradiction)
  | .error x, .error y =>
      if h : x = y then .isTrue (by rw [h])
      else .isFalse (by intro c; injection c; contradiction)
  | .ok _, .error _ => .isFalse (by intro c; cases c)
  | .error _, .ok _ => .isFalse (by intro c; cases c)

/-- `OsintApiClient.get(endpoint, params?)`: the request it issues. -/
def ApiClient.get (endpoint : String) (params : List (String × JsVal)) : ApiRequest :=
  { method := .GET, path := endpoint, params := params }

/-- `OsintApiClient.post(endpoint, body?)`: the request it issues (no bound
dispatcher case passes a body, so the body is not modelled). -/
def ApiClient.post (endpoint : String) : ApiRequest :=
  { method := .POST, path := endpoint, params := [] }

/-- An HTTP response as seen by `fetch`: numeric status and body text. -/
structure HttpResponse where
  status : Nat
  body : String

/-- `Response.ok`: status in the 2xx range. -/
def respOk (r : HttpResponse) : Bool := 200 ≤ r.status && r.status < 300

/-- The shared response handling of `OsintApiClient.get` and `.post`:
`if (!response.ok) throw new Error(`API Error ${status}: ${body}`)`,
otherwise the parsed body is returned (kept as raw text here). -/
def apiFetch (r : HttpResponse) : Except String String :=
  if respOk r then .ok r.body
  else .error ("API Error " ++ toString r.status ++ ": " ++ r.body)

/-- Query-string construction of `OsintApiClient.get`:
`Object.entries(params).forEach(([key, value]) => { if (value !==
undefined && value !== null) url.searchParams.append(key, String(value)) })`. -/
def serializeParams (params : List (String × JsVal)) : List (String × String) :=
  params.foldl
    (fun acc p =>
      if !(p.2 == JsVal.undef) && !(p.2 == JsVal.null) then acc ++ [(p.1, jsString p.2)]
      else acc)
    []

/-- `ApiClientConfig` of api-client.ts (v2 revision): optional credentials;
`none` models an absent field. -/
structure ApiClientConfig where
  baseUrl : String
  apiKey : Option String
  jwtToken : Option String
  oryUserId : Option String
  oryUserEmail : Option String
  oryUserRole : Option String

/-- JavaScript truthiness of an optional string configuration field:
`undefined` and the empty string are falsy. -/
def truthy : Option String → Bool
  | none => false
  | some s => s != ""

/-- The header set computed once by the `OsintApiClient` constructor
(v2 revision): fixed JSON headers, then at most one authentication block
chosen by the if/else-if chain (JWT, then API key, then Ory identity
headers). -/
def buildHeaders (c : ApiClientConfig) : List (String × String) :=
  [("Content-Type", "application/json"), ("Accept", "application/json")]
    ++ (if truthy c.jwtToken then
          [("Authorization", "Bearer " ++ c.jwtToken.getD "")]
        else if truthy c.apiKey then
          [("Authorization", "Bearer " ++ c.apiKey.getD "")]
        else if truthy c.oryUserId then
          [("X-User-ID", c.oryUserId.getD "")]
            ++ (if truthy c.oryUserEmail then [("X-User-Email", c.oryUserEmail.getD "")] else [])
            ++ (if truthy c.oryUserRole then [("X-User-Role", c.oryUserRole.getD "")] else [])
        else [])

/-- Look a header up by name (JS object property read). -/
def headerLookup (hs : List (String × String)) (k : String) : Option String :=
  (hs.find? (fun p => p.1 == k)).map (fun p => p.2)

/-! ### OsintApiClient methods (api-client.ts, v2 revision)

One definition per `async` method, in source order.  Each returns the
`ApiRequest` the method issues; path templates keep the interpolation
structure of the source. -/

def OsintApiClient.searchMessages (params : List (String × JsVal)) : ApiRequest :=
  ApiClient.get "/api/messages" params

def OsintApiClient.getMessage (messageId : JsVal) : ApiRequest :=
  ApiClient.get ("/api/messages/" ++ jsString messageId) []

def OsintApiClient.getAdjacentMessages (messageId : JsVal) : ApiRequest :=
  ApiClient.get ("/api/messages/" ++ jsString messageId ++ "/adjacent") []

def OsintApiClient.getMessageAlbum (messageId : JsVal) : ApiRequest :=
  ApiClient.get ("/api/messages/" ++ jsString messageId ++ "/album") []

def OsintApiClient.getMessageNetwork (messageId : JsVal) (params : List (String × JsVal)) : ApiRequest :=
  ApiClient.get ("/api/messages/" ++ jsString messageId ++ "/network") params

def OsintApiClient.getMessageTimeline (messageId : JsVal) (params : List (String × JsVal)) : ApiRequest :=
  ApiClient.get ("/api/messages/" ++ jsString messageId ++ "/timeline") params

def OsintApiClient.semanticSearch (params : List (String × JsVal)) : ApiRequest :=
  ApiClient.get "/api/semantic/search" params

def OsintApiClient.findSimilarMessages (messageId : JsVal) (params : List (String × JsVal)) : ApiRequest :=
  ApiClient.get ("/api/semantic/similar/" ++ jsString messageId) params

def OsintApiClient.getTags (params : List (String × JsVal)) : ApiRequest :=
  ApiClient.get "/api/semantic/tags" params

def OsintApiClient.searchByTags (params : List (String × JsVal)) : ApiRequest :=
  ApiClient.get "/api/semantic/tags/search" params

def OsintApiClient.unifiedSearch (params : List (String × JsVal)) : ApiRequest :=
  ApiClient.get "/api/search" params

def OsintApiClient.listChannels (params : List (String × JsVal)) : ApiRequest :=
  ApiClient.get "/api/channels" params

def OsintApiClient.getChannel (channelId : JsVal) : ApiRequest :=
  ApiClient.get ("/api/channels/" ++ jsString channelId) []

def OsintApiClient.getChannelStats (channelId : JsVal) : ApiRequest :=
  ApiClient.get ("/api/channels/" ++ jsString channelId ++ "/stats") []

def OsintApiClient.getChannelNetwork (channelId : JsVal) (params : List (String × JsVal)) : ApiRequest :=
  ApiClient.get ("/api/channels/" ++ jsString channelId ++ "/network") params

def OsintApiClient.getMessageSocialGraph (messageId : JsVal) (params : List (String × JsVal)) : ApiRequest :=
  ApiClient.get ("/api/social-graph/messages/" ++ jsString messageId) params

def OsintApiClient.getChannelInfluence (channelId : JsVal) : ApiRequest :=
  ApiClient.get ("/api/social-graph/channels/" ++ jsString channelId ++ "/influence") []

def OsintApiClient.getInfluenceNetwork (params : List (String × JsVal)) : ApiRequest :=
  ApiClient.get "/api/social-graph/influence-network" params

def OsintApiClient.getEngagementTimeline (messageId : JsVal) : ApiRequest :=
  ApiClient.get ("/api/social-graph/messages/" ++ jsString messageId ++ "/engagement-timeline") []

def OsintApiClient.getMessageComments (messageId : JsVal) (params : List (String × JsVal)) : ApiRequest :=
  ApiClient.get ("/api/social-graph/messages/" ++ jsString messageId ++ "/comments") params

def OsintApiClient.getTopForwarded (params : List (String × JsVal)) : ApiRequest :=
  ApiClient.get "/api/social-graph/virality/top-forwarded" params

def OsintApiClient.getTopInfluencers (params : List (String × JsVal)) : ApiRequest :=
  ApiClient.get "/api/social-graph/influencers" params

def OsintApiClient.searchEntities (params : List (String × JsVal)) : ApiRequest :=
  ApiClient.get "/api/entities/search" params

def OsintApiClient.getEntity (source entityId : JsVal) (params : List (String × JsVal)) : ApiRequest :=
  ApiClient.get ("/api/entities/" ++ jsString source ++ "/" ++ jsString entityId) params

def OsintApiClient.getEntityRelationships (source entityId : JsVal) (params : List (String × JsVal)) : ApiRequest :=
  ApiClient.get ("/api/entities/" ++ jsString source ++ "/" ++ jsString entityId ++ "/relationships") params

def OsintApiClient.getEntityMessages (source entityId : JsVal) (params : List (String × JsVal)) : ApiRequest :=
  ApiClient.get ("/api/entities/" ++ jsString source ++ "/" ++ jsString entityId ++ "/messages") params

def OsintApiClient.listEvents (params : List (String × JsVal)) : ApiRequest :=
  ApiClient.get "/api/events" params

def OsintApiClient.getEventStats : ApiRequest :=
  ApiClient.get "/api/events/stats" []

def OsintApiClient.getEvent (eventId : JsVal) (params : List (String × JsVal)) : ApiRequest :=
  ApiClient.get ("/api/events/" ++ jsString eventId) params

def OsintApiClient.getEventTimeline (eventId : JsVal) : ApiRequest :=
  ApiClient.get ("/api/events/" ++ jsString eventId ++ "/timeline") []

def OsintApiClient.getEventsForMessage (messageId : JsVal) : ApiRequest :=
  ApiClient.get ("/api/events/message/" ++ jsString messageId) []

def OsintApiClient.getTimelineStats (params : List (String × JsVal)) : ApiRequest :=
  ApiClient.get "/api/analytics/timeline" params

def OsintApiClient.getTopicDistribution (params : List (String × JsVal)) : ApiRequest :=
  ApiClient.get "/api/analytics/distribution/topics" params

def OsintApiClient.getLanguageDistribution (params : List (String × JsVal)) : ApiRequest :=
  ApiClient.get "/api/analytics/distribution/languages" params

def OsintApiClient.getChannelAnalytics (params : List (String × JsVal)) : ApiRequest :=
  ApiClient.get "/api/analytics/channels/activity" params

def OsintApiClient.getHeatmap (params : List (String × JsVal)) : ApiRequest :=
  ApiClient.get "/api/analytics/heatmap" params

def OsintApiClient.getEntityAnalytics (params : List (String × JsVal)) : ApiRequest :=
  ApiClient.get "/api/analytics/entities" params

def OsintApiClient.getMediaAnalytics : ApiRequest :=
  ApiClient.get "/api/analytics/media" []

def OsintApiClient.getMapMessages (params : List (String × JsVal)) : ApiRequest :=
  ApiClient.get "/api/map/messages" params

def OsintApiClient.getMapClusters (params : List (String × JsVal)) : ApiRequest :=
  ApiClient.get "/api/map/clusters" params

def OsintApiClient.getMapEvents (params : List (String × JsVal)) : ApiRequest :=
  ApiClient.get "/api/map/events" params

def OsintApiClient.getMapHeatmap (params : List (String × JsVal)) : ApiRequest :=
  ApiClient.get "/api/map/heatmap" params

def OsintApiClient.suggestLocations (params : List (String × JsVal)) : ApiRequest :=
  ApiClient.get "/api/map/locations/suggest" params

def OsintApiClient.reverseGeocode (params : List (String × JsVal)) : ApiRequest :=
  ApiClient.get "/api/map/locations/reverse" params

def OsintApiClient.getUnifiedStream (params : List (String × JsVal)) : ApiRequest :=
  ApiClient.get "/api/stream/unified" params

def OsintApiClient.validateMessage (messageId : JsVal) : ApiRequest :=
  ApiClient.get ("/api/validation/messages/" ++ jsString messageId) []

def OsintApiClient.getCorrelations (messageId : JsVal) : ApiRequest :=
  ApiClient.get ("/api/validation/messages/" ++ jsString messageId ++ "/correlations") []

def OsintApiClient.getComment (commentId : JsVal) : ApiRequest :=
  ApiClient.get ("/api/comments/" ++ jsString commentId) []

def OsintApiClient.translateComment (commentId : JsVal) : ApiRequest :=
  ApiClient.post ("/api/comments/" ++ jsString commentId ++ "/translate")

def OsintApiClient.getMediaGallery (params : List (String × JsVal)) : ApiRequest :=
  ApiClient.get "/api/media/gallery" params

def OsintApiClient.getAdminDashboard : ApiRequest :=
  ApiClient.get "/api/admin/dashboard" []

def OsintApiClient.getAdminStatsOverview : ApiRequest :=
  ApiClient.get "/api/admin/stats/overview" []

def OsintApiClient.getAdminStatsQuality : ApiRequest :=
  ApiClient.get "/api/admin/stats/quality" []

def OsintApiClient.getAdminStatsProcessing (params : List (String × JsVal)) : ApiRequest :=
  ApiClient.get "/api/admin/stats/processing" params

def OsintApiClient.getAdminStatsStorage : ApiRequest :=
  ApiClient.get "/api/admin/stats/storage" []

def OsintApiClient.getAdminWorkersStats : ApiRequest :=
  ApiClient.get "/api/admin/system/workers/stats" []

def OsintApiClient.getAdminEnrichmentTasks : ApiRequest :=
  ApiClient.get "/api/admin/system/enrichment/tasks" []

def OsintApiClient.getAdminCacheStats : ApiRequest :=
  ApiClient.get "/api/admin/system/cache/stats" []

def OsintApiClient.getAdminAuditStats : ApiRequest :=
  ApiClient.get "/api/admin/system/audit/stats" []

def OsintApiClient.getAdminSpamStats : ApiRequest :=
  ApiClient.get "/api/admin/spam/stats" []

def OsintApiClient.getAdminChannelsStats : ApiRequest :=
  ApiClient.get "/api/admin/channels/stats" []

def OsintApiClient.getAdminEntitiesStats : ApiRequest :=
  ApiClient.get "/api/admin/entities/stats" []

def OsintApiClient.getAdminFeedsStats : ApiRequest :=
  ApiClient.get "/api/admin/feeds/rss/stats" []

def OsintApiClient.getAdminPromptsStats : ApiRequest :=
  ApiClient.get "/api/admin/prompts/stats" []

def OsintApiClient.getAdminCommentsStats : ApiRequest :=
  ApiClient.get "/api/admin/comments/stats" []

def OsintApiClient.getAdminViralPosts : ApiRequest :=
  ApiClient.get "/api/admin/comments/viral" []

def OsintApiClient.getHealth : ApiRequest :=
  ApiClient.get "/health" []

def OsintApiClient.getHardwareConfig : ApiRequest :=
  ApiClient.get "/api/health/hardware" []

def OsintApiClient.getSystemStatus : ApiRequest :=
  ApiClient.get "/api/system/status" []

def OsintApiClient.getMetricsOverview : ApiRequest :=
  ApiClient.get "/api/metrics/overview" []

def OsintApiClient.getMetricsLLM : ApiRequest :=
  ApiClient.get "/api/metrics/llm" []

def OsintApiClient.getMetricsPipeline : ApiRequest :=
  ApiClient.get "/api/metrics/pipeline" []

def OsintApiClient.getMetricsServices : ApiRequest :=
  ApiClient.get "/api/metrics/services" []

def OsintApiClient.listModels : ApiRequest :=
  ApiClient.get "/api/models" []

def OsintApiClient.getModelHealth : ApiRequest :=
  ApiClient.get "/api/models/health" []

/-- A tool descriptor of the static `tools` catalog (index.ts, v2
revision): the name, the `inputSchema.properties` keys in declaration
order, and the `required` list.  Human-readable descriptions and
per-property types are static prose not consulted by any claim and are
omitted. -/
structure ToolDescriptor where
  name : String
  properties : List String
  required : List String
deriving DecidableEq, Repr

/-- The static `tools` catalog of index.ts (v2 revision), in source order. -/
def tools : List ToolDescriptor :=
  [⟨"search_messages", ["query", "channel_id", "days", "date_from", "date_to", "importance_level", "topic", "has_media", "media_type", "language", "min_views", "min_forwards", "channel_folder", "page", "page_size"], []⟩,
   ⟨"get_message", ["message_id"], ["message_id"]⟩,
   ⟨"get_message_album", ["message_id"], ["message_id"]⟩,
   ⟨"get_message_network", ["message_id", "include_similar", "similarity_threshold", "max_similar"], ["message_id"]⟩,
   ⟨"get_message_timeline", ["message_id", "before_count", "after_count", "same_channel_only", "use_semantic", "use_events"], ["message_id"]⟩,
   ⟨"semantic_search", ["query", "similarity_threshold", "limit", "channel_id", "importance_level", "days"], ["query"]⟩,
   ⟨"find_similar_messages", ["message_id", "similarity_threshold", "limit"], ["message_id"]⟩,
   ⟨"get_tags", ["tag_type", "limit"], []⟩,
   ⟨"search_by_tags", ["tags", "match_all", "limit"], ["tags"]⟩,
   ⟨"unified_search", ["query", "mode", "types", "limit_per_type", "days", "location", "lat", "lng", "radius_km"], ["query"]⟩,
   ⟨"list_channels", ["active_only", "rule", "folder", "verified_only", "limit"], []⟩,
   ⟨"get_channel", ["channel_id"], ["channel_id"]⟩,
   ⟨"get_channel_stats", ["channel_id"], ["channel_id"]⟩,
   ⟨"get_channel_network", ["channel_id", "similarity_threshold", "max_messages", "time_window", "include_clusters"], ["channel_id"]⟩,
   ⟨"get_message_social_graph", ["message_id", "include_forwards", "include_replies", "max_depth", "max_comments"], ["message_id"]⟩,
   ⟨"get_channel_influence", ["channel_id"], ["channel_id"]⟩,
   ⟨"get_influence_network", ["min_forwards", "days", "limit"], []⟩,
   ⟨"get_engagement_timeline", ["message_id"], ["message_id"]⟩,
   ⟨"get_message_comments", ["message_id", "limit", "offset"], ["message_id"]⟩,
   ⟨"get_top_forwarded", ["days", "limit"], []⟩,
   ⟨"get_top_influencers", ["days", "limit"], []⟩,
   ⟨"search_entities", ["query", "source", "entity_type", "limit"], ["query"]⟩,
   ⟨"get_entity", ["source", "entity_id", "include_linked"], ["source", "entity_id"]⟩,
   ⟨"get_entity_relationships", ["source", "entity_id", "refresh"], ["source", "entity_id"]⟩,
   ⟨"get_entity_mentions", ["source", "entity_id", "limit"], ["source", "entity_id"]⟩,
   ⟨"list_events", ["page", "page_size", "tab", "tier_status", "event_type", "search", "search_mode"], []⟩,
   ⟨"get_event_stats", [], []⟩,
   ⟨"get_event", ["event_id", "include_messages", "include_sources", "message_limit"], ["event_id"]⟩,
   ⟨"get_event_timeline", ["event_id"], ["event_id"]⟩,
   ⟨"get_events_for_message", ["message_id"], ["message_id"]⟩,
   ⟨"get_timeline_stats", ["granularity", "channel_id", "topic", "importance_level", "days"], []⟩,
   ⟨"get_topic_distribution", ["days", "limit"], []⟩,
   ⟨"get_language_distribution", ["days"], []⟩,
   ⟨"get_channel_analytics", ["days", "limit"], []⟩,
   ⟨"get_activity_heatmap", ["days"], []⟩,
   ⟨"get_entity_analytics", ["days", "limit"], []⟩,
   ⟨"get_media_analytics", [], []⟩,
   ⟨"get_map_messages", ["bounds", "zoom", "cluster", "cluster_grid_size", "days", "include_confidence"], []⟩,
   ⟨"get_map_clusters", ["bounds", "tier_status", "days"], []⟩,
   ⟨"get_map_events", ["bounds"], []⟩,
   ⟨"get_map_heatmap", ["zoom", "bounds", "grid_size"], []⟩,
   ⟨"suggest_locations", ["query", "limit"], ["query"]⟩,
   ⟨"reverse_geocode", ["lat", "lng"], ["lat", "lng"]⟩,
   ⟨"get_unified_stream", ["limit", "sources", "categories", "importance_level", "hours"], []⟩,
   ⟨"validate_message", ["message_id"], ["message_id"]⟩,
   ⟨"get_message_correlations", ["message_id"], ["message_id"]⟩,
   ⟨"get_media_gallery", ["channel_id", "media_type", "date_from", "date_to", "limit", "offset"], []⟩,
   ⟨"get_platform_dashboard", [], []⟩,
   ⟨"get_platform_stats_overview", [], []⟩,
   ⟨"get_data_quality_stats", [], []⟩,
   ⟨"get_processing_stats", ["hours"], []⟩,
   ⟨"get_storage_stats", [], []⟩,
   ⟨"get_worker_stats", [], []⟩,
   ⟨"get_enrichment_tasks", [], []⟩,
   ⟨"get_cache_stats", [], []⟩,
   ⟨"get_audit_stats", [], []⟩,
   ⟨"get_spam_stats", [], []⟩,
   ⟨"get_channels_admin_stats", [], []⟩,
   ⟨"get_entities_admin_stats", [], []⟩,
   ⟨"get_rss_feeds_stats", [], []⟩,
   ⟨"get_llm_prompts_stats", [], []⟩,
   ⟨"get_viral_posts", [], []⟩,
   ⟨"get_system_health", [], []⟩,
   ⟨"get_hardware_config", [], []⟩,
   ⟨"get_system_status", [], []⟩,
   ⟨"get_metrics_overview", [], []⟩,
   ⟨"get_metrics_llm", [], []⟩,
   ⟨"get_metrics_pipeline", [], []⟩,
   ⟨"get_metrics_services", [], []⟩,
   ⟨"list_llm_models", [], []⟩,
   ⟨"get_llm_model_health", [], []⟩]

/-- The cases of the `handleToolCall` switch of index.ts (v2 revision),
in source order: each `case` label paired with its binding, the one
API-client call it returns.  TypeScript `as` casts are unchecked at
runtime, so each read passes `getArg args k` through unchanged. -/
def dispatchCases : List (String × (Args → ApiRequest)) :=
  [("search_messages", fun args =>
     OsintApiClient.searchMessages [("q", getArg args "query"), ("channel_id", getArg args "channel_id"), ("days", getArg args "days"), ("date_from", getArg args "date_from"), ("date_to", getArg args "date_to"), ("importance_level", getArg args "importance_level"), ("topic", getArg args "topic"), ("has_media", getArg args "has_media"), ("media_type", getArg args "media_type"), ("language", getArg args "language"), ("min_views", getArg args "min_views"), ("min_forwards", getArg args "min_forwards"), ("channel_folder", getArg args "channel_folder"), ("page", getArg args "page"), ("page_size", getArg args "page_size")]),
   ("get_message", fun args =>
     OsintApiClient.getMessage (getArg args "message_id")),
   ("get_message_album", fun args =>
     OsintApiClient.getMessageAlbum (getArg args "message_id")),
   ("get_message_network", fun args =>
     OsintApiClient.getMessageNetwork (getArg args "message_id") [("include_similar", getArg args "include_similar"), ("similarity_threshold", getArg args "similarity_threshold"), ("max_similar", getArg args "max_similar")]),
   ("get_message_timeline", fun args =>
     OsintApiClient.getMessageTimeline (getArg args "message_id") [("before_count", getArg args "before_count"), ("after_count", getArg args "after_count"), ("same_channel_only", getArg args "same_channel_only"), ("use_semantic", getArg args "use_semantic"), ("use_events", getArg args "use_events"), ("similarity_threshold", getArg args "similarity_threshold")]),
   ("semantic_search", fun args =>
     OsintApiClient.semanticSearch [("q", getArg args "query"), ("similarity_threshold", getArg args "similarity_threshold"), ("limit", getArg args "limit"), ("channel_id", getArg args "channel_id"), ("importance_level", getArg args "importance_level"), ("days", getArg args "days")]),
   ("find_similar_messages", fun args =>
     OsintApiClient.findSimilarMessages (getArg args "message_id") [("similarity_threshold", getArg args "similarity_threshold"), ("limit", getArg args "limit")]),
   ("get_tags", fun args =>
     OsintApiClient.getTags [("tag_type", getArg args "tag_type"), ("limit", getArg args "limit")]),
   ("search_by_tags", fun args =>
     OsintApiClient.searchByTags [("tags", getArg args "tags"), ("match_all", getArg args "match_all"), ("limit", getArg args "limit")]),
   ("unified_search", fun args =>
     OsintApiClient.unifiedSearch [("q", getArg args "query"), ("mode", getArg args "mode"), ("types", getArg args "types"), ("limit_per_type", getArg args "limit_per_type"), ("days", getArg args "days"), ("location", getArg args "location"), ("lat", getArg args "lat"), ("lng", getArg args "lng"), ("radius_km", getArg args "radius_km")]),
   ("list_channels", fun args =>
     OsintApiClient.listChannels [("active_only", getArg args "active_only"), ("rule", getArg args "rule"), ("folder", getArg args "folder"), ("verified_only", getArg args "verified_only"), ("limit", getArg args "limit")]),
   ("get_channel", fun args =>
     OsintApiClient.getChannel (getArg args "channel_id")),
   ("get_channel_stats", fun args =>
     OsintApiClient.getChannelStats (getArg args "channel_id")),
   ("get_channel_network", fun args =>
     OsintApiClient.getChannelNetwork (getArg args "channel_id") [("similarity_threshold", getArg args "similarity_threshold"), ("max_messages", getArg args "max_messages"), ("time_window", getArg args "time_window"), ("include_clusters", getArg args "include_clusters")]),
   ("get_message_social_graph", fun args =>
     OsintApiClient.getMessageSocialGraph (getArg args "message_id") [("include_forwards", getArg args "include_forwards"), ("include_replies", getArg args "include_replies"), ("max_depth", getArg args "max_depth"), ("max_comments", getArg args "max_comments")]),
   ("get_channel_influence", fun args =>
     OsintApiClient.getChannelInfluence (getArg args "channel_id")),
   ("get_influence_network", fun args =>
     OsintApiClient.getInfluenceNetwork [("min_forwards", getArg args "min_forwards"), ("days", getArg args "days"), ("limit", getArg args "limit")]),
   ("get_engagement_timeline", fun args =>
     OsintApiClient.getEngagementTimeline (getArg args "message_id")),
   ("get_message_comments", fun args =>
     OsintApiClient.getMessageComments (getArg args "message_id") [("limit", getArg args "limit"), ("offset", getArg args "offset")]),
   ("get_top_forwarded", fun args =>
     OsintApiClient.getTopForwarded [("days", getArg args "days"), ("limit", getArg args "limit")]),
   ("get_top_influencers", fun args =>
     OsintApiClient.getTopInfluencers [("days", getArg args "days"), ("limit", getArg args "limit")]),
   ("search_entities", fun args =>
     OsintApiClient.searchEntities [("q", getArg args "query"), ("source", getArg args "source"), ("entity_type", getArg args "entity_type"), ("limit", getArg args "limit")]),
   ("get_entity", fun args =>
     OsintApiClient.getEntity (getArg args "source") (getArg args "entity_id") [("include_linked", getArg args "include_linked")]),
   ("get_entity_relationships", fun args =>
     OsintApiClient.getEntityRelationships (getArg args "source") (getArg args "entity_id") [("refresh", getArg args "refresh")]),
   ("get_entity_mentions", fun args =>
     OsintApiClient.getEntityMessages (getArg args "source") (getArg args "entity_id") [("limit", getArg args "limit")]),
   ("list_events", fun args =>
     OsintApiClient.listEvents [("page", getArg args "page"), ("page_size", getArg args "page_size"), ("tab", getArg args "tab"), ("tier_status", getArg args "tier_status"), ("event_type", getArg args "event_type"), ("search", getArg args "search"), ("search_mode", getArg args "search_mode")]),
   ("get_event_stats", fun _ =>
     OsintApiClient.getEventStats),
   ("get_event", fun args =>
     OsintApiClient.getEvent (getArg args "event_id") [("include_messages", getArg args "include_messages"), ("include_sources", getArg args "include_sources"), ("message_limit", getArg args "message_limit")]),
   ("get_event_timeline", fun args =>
     OsintApiClient.getEventTimeline (getArg args "event_id")),
   ("get_events_for_message", fun args =>
     OsintApiClient.getEventsForMessage (getArg args "message_id")),
   ("get_timeline_stats", fun args =>
     OsintApiClient.getTimelineStats [("granularity", getArg args "granularity"), ("channel_id", getArg args "channel_id"), ("topic", getArg args "topic"), ("importance_level", getArg args "importance_level"), ("days", getArg args "days")]),
   ("get_topic_distribution", fun args =>
     OsintApiClient.getTopicDistribution [("days", getArg args "days"), ("limit", getArg args "limit")]),
   ("get_language_distribution", fun args =>
     OsintApiClient.getLanguageDistribution [("days", getArg args "days")]),
   ("get_channel_analytics", fun args =>
     OsintApiClient.getChannelAnalytics [("days", getArg args "days"), ("limit", getArg args "limit")]),
   ("get_activity_heatmap", fun args =>
     OsintApiClient.getHeatmap [("days", getArg args "days")]),
   ("get_entity_analytics", fun args =>
     OsintApiClient.getEntityAnalytics [("days", getArg args "days"), ("limit", getArg args "limit")]),
   ("get_media_analytics", fun _ =>
     OsintApiClient.getMediaAnalytics),
   ("get_map_messages", fun args =>
     OsintApiClient.getMapMessages [("bounds", getArg args "bounds"), ("zoom", getArg args "zoom"), ("cluster", getArg args "cluster"), ("cluster_grid_size", getArg args "cluster_grid_size"), ("days", getArg args "days"), ("include_confidence", getArg args "include_confidence")]),
   ("get_map_clusters", fun args =>
     OsintApiClient.getMapClusters [("bounds", getArg args "bounds"), ("tier_status", getArg args "tier_status"), ("days", getArg args "days")]),
   ("get_map_events", fun args =>
     OsintApiClient.getMapEvents [("bounds", getArg args "bounds")]),
   ("get_map_heatmap", fun args =>
     OsintApiClient.getMapHeatmap [("zoom", getArg args "zoom"), ("bounds", getArg args "bounds"), ("grid_size", getArg args "grid_size")]),
   ("suggest_locations", fun args =>
     OsintApiClient.suggestLocations [("q", getArg args "query"), ("limit", getArg args "limit")]),
   ("reverse_geocode", fun args =>
     OsintApiClient.reverseGeocode [("lat", getArg args "lat"), ("lng", getArg args "lng")]),
   ("get_unified_stream", fun args =>
     OsintApiClient.getUnifiedStream [("limit", getArg args "limit"), ("sources", getArg args "sources"), ("categories", getArg args "categories"), ("importance_level", getArg args "importance_level"), ("hours", getArg args "hours")]),
   ("validate_message", fun args =>
     OsintApiClient.validateMessage (getArg args "message_id")),
   ("get_message_correlations", fun args =>
     OsintApiClient.getCorrelations (getArg args "message_id")),
   ("get_media_gallery", fun args =>
     OsintApiClient.getMediaGallery [("channel_id", getArg args "channel_id"), ("media_type", getArg args "media_type"), ("date_from", getArg args "date_from"), ("date_to", getArg args "date_to"), ("limit", getArg args "limit"), ("offset", getArg args "offset")]),
   ("get_platform_dashboard", fun _ =>
     OsintApiClient.getAdminDashboard),
   ("get_platform_stats_overview", fun _ =>
     OsintApiClient.getAdminStatsOverview),
   ("get_data_quality_stats", fun _ =>
     OsintApiClient.getAdminStatsQuality),
   ("get_processing_stats", fun args =>
     OsintApiClient.getAdminStatsProcessing [("hours", getArg args "hours")]),
   ("get_storage_stats", fun _ =>
     OsintApiClient.getAdminStatsStorage),
   ("get_worker_stats", fun _ =>
     OsintApiClient.getAdminWorkersStats),
   ("get_enrichment_tasks", fun _ =>
     OsintApiClient.getAdminEnrichmentTasks),
   ("get_cache_stats", fun _ =>
     OsintApiClient.getAdminCacheStats),
   ("get_audit_stats", fun _ =>
     OsintApiClient.getAdminAuditStats),
   ("get_spam_stats", fun _ =>
     OsintApiClient.getAdminSpamStats),
   ("get_channels_admin_stats", fun _ =>
     OsintApiClient.getAdminChannelsStats),
   ("get_entities_admin_stats", fun _ =>
     OsintApiClient.getAdminEntitiesStats),
   ("get_rss_feeds_stats", fun _ =>
     OsintApiClient.getAdminFeedsStats),
   ("get_llm_prompts_stats", fun _ =>
     OsintApiClient.getAdminPromptsStats),
   ("get_viral_posts", fun _ =>
     OsintApiClient.getAdminViralPosts),
   ("get_system_health", fun _ =>
     OsintApiClient.getHealth),
   ("get_hardware_config", fun _ =>
     OsintApiClient.getHardwareConfig),
   ("get_system_status", fun _ =>
     OsintApiClient.getSystemStatus),
   ("get_metrics_overview", fun _ =>
     OsintApiClient.getMetricsOverview),
   ("get_metrics_llm", fun _ =>
     OsintApiClient.getMetricsLLM),
   ("get_metrics_pipeline", fun _ =>
     OsintApiClient.getMetricsPipeline),
   ("get_metrics_services", fun _ =>
     OsintApiClient.getMetricsServices),
   ("list_llm_models", fun _ =>
     OsintApiClient.listModels),
   ("get_llm_model_health", fun _ =>
     OsintApiClient.getModelHealth)]

/-- The case labels of the `handleToolCall` switch, in source order. -/
def handlerCaseLabels : List String := dispatchCases.map (fun c => c.1)

/-- `handleToolCall` of index.ts (v2 revision): the switch mapping a tool
name and untyped argument bag to the one API-client call implementing it.
Every case of the source `switch` returns immediately, so the switch is
dispatch to the first (and, the labels being distinct, only) matching
case of `dispatchCases`; the `default` case throws `Unknown tool:
<name>`. -/
def handleToolCall (name : String) (args : Args) : Except String ApiRequest :=
  match dispatchCases.find? (fun c => c.1 == name) with
  | some c => .ok (c.2 args)
  | none => .error ("Unknown tool: " ++ name)

/-- Tool names of the `tools` array of the superseded v1 revision of
index.ts, in source order. -/
def toolNamesV1 : List String :=
  ["search_messages",
   "get_message",
   "get_message_social_graph",
   "semantic_search",
   "find_similar_messages",
   "unified_search",
   "list_channels",
   "get_channel",
   "get_channel_stats",
   "get_channel_network",
   "search_entities",
   "get_entity",
   "get_entity_relationships",
   "get_entity_mentions",
   "list_events",
   "get_event",
   "get_event_messages",
   "get_timeline_stats",
   "get_topic_distribution",
   "get_channel_analytics",
   "get_map_messages",
   "get_map_clusters",
   "get_system_health",
   "get_system_status"]

/-- Case labels of the `handleToolCall` switch of the superseded v1
revision of index.ts, in source order. -/
def handlerCaseLabelsV1 : List String :=
  ["search_messages",
   "get_message",
   "get_message_social_graph",
   "semantic_search",
   "find_similar_messages",
   "unified_search",
   "list_channels",
   "get_channel",
   "get_channel_stats",
   "get_channel_network",
   "search_entities",
   "get_entity",
   "get_entity_relationships",
   "get_entity_mentions",
   "list_events",
   "get_event",
   "get_event_messages",
   "get_timeline_stats",
   "get_topic_distribution",
   "get_channel_analytics",
   "get_map_messages",
   "get_map_clusters",
   "get_system_health",
   "get_system_status"]

/-- The `inputSchema.properties` keys the catalog declares for a tool
name (empty for names not in the catalog). -/
def schemaProps (n : String) : List String :=
  match tools.find? (fun t => t.name == n) with
  | some t => t.properties
  | none => []

/-- The argument-bag keys the dispatcher case for a tool actually reads.
Every case reads only keys its schema declares, except
`get_message_timeline`, which additionally reads `similarity_threshold`
(undeclared in its schema). -/
def bindingReadKeys (n : String) : List String :=
  if n = "get_message_timeline" then schemaProps n ++ ["similarity_threshold"]
  else schemaProps n

/-- One content block of an MCP tool-call response. -/
structure ContentBlock where
  type : String
  text : String
deriving DecidableEq, Repr

/-- An MCP tool-call response: content blocks plus the error flag (the
success branch sets no `isError` field, which reads as falsy). -/
structure CallToolResponse where
  content : List ContentBlock
  isError : Bool
deriving DecidableEq, Repr

/-- `JSON.stringify(result, null, 2)` applied to the parsed response body.
No claim depends on the pretty-printed rendering, so the parse/stringify
round trip is modelled as the identity on the body text. -/
def renderResult (body : String) : String := body

/-- The `CallToolRequestSchema` handler of index.ts (v2 revision): run the
dispatcher and the client call, wrap a success as one text block, and
wrap any thrown error in-band as one `Error: <message>` text block with
`isError: true`.  `remote` supplies the HTTP response for the one request
a successful dispatch issues. -/
def callToolHandler (remote : ApiRequest → HttpResponse) (name : String) (args : Args) :
    CallToolResponse :=
  match (handleToolCall name args).bind (fun req => apiFetch (remote req)) with
  | .ok body => { content := [⟨"text", renderResult body⟩], isError := false }
  | .error msg => { content := [⟨"text", "Error: " ++ msg⟩], isError := true }

/-- The MCP request-handler kinds a server of this SDK can register. -/
inductive McpHandler where
  | listTools
  | callTool
  | listResources
  | readResource
  | listPrompts
  | getPrompt
deriving DecidableEq, Repr

/-- The handlers index.ts (v2 revision) registers: exactly
`ListToolsRequestSchema` and `CallToolRequestSchema` (lines 1140-1142 of
the v2 server setup); no resource or prompt handler is registered. -/
def registeredHandlers : List McpHandler := [.listTools, .callTool]

/-- The server capability declaration of index.ts (v2 revision):
`{ capabilities: { tools: {} } }`. -/
structure ServerCapabilities where
  tools : Bool
  resources : Bool
  prompts : Bool
deriving DecidableEq, Repr

def serverCapabilities : ServerCapabilities :=
  { tools := true, resources := false, prompts := false }

/-! ### Prompt templates (src/prompts.ts) -/

/-- Property access `args.k` on the `Record<string, string>` argument
record of `getPromptContent`: `some` the stored string, or `none`
(JavaScript `undefined`) when absent. -/
def promptArg (args : List (String × String)) (k : String) : Option String :=
  (args.find? (fun p => p.1 == k)).map (fun p => p.2)

/-- JavaScript truthiness of `args.k` in a conditional template branch:
an absent key and the empty string are falsy. -/
def promptTruthy : Option String → Bool
  | none => false
  | some s => s != ""

/-- Template-literal interpolation of `args.k`: an absent key renders as
the literal text `undefined`. -/
def promptInterp : Option String → String
  | none => "undefined"
  | some s => s

/-- Interpolation of `args.k || d` (default on falsy). -/
def promptOr (o : Option String) (d : String) : String :=
  if promptTruthy o then promptInterp o else d

/-- The cases of the `getPromptContent` switch of src/prompts.ts, in
source order: each prompt name paired with its template expansion.
Template literals become string concatenations, with
`promptInterp`/`promptTruthy`/`promptOr` modelling the JavaScript
interpolation, conditional and default operators. -/
def promptCases : List (String × (List (String × String) → String)) :=
  [("investigate_entity", fun args =>
    "# Entity Investigation: "
      ++ promptInterp (promptArg args "entity_name")
      ++ "\n\n## Investigation Workflow\n\nI'll investigate \""
      ++ promptInterp (promptArg args "entity_name")
      ++ "\" using these steps:\n\n1. **Search Entities** - Search both curated (1,425+ entities) and OpenSanctions (10,000+) databases\n2. **Get Entity Profile** - Retrieve full profile with aliases, metadata, and linked counts\n3. **Get Relationships** - Query Wikidata for corporate connections, political positions, associates\n4. **Find Mentions** - Get recent Telegram messages mentioning this entity\n5. **Cross-Reference Events** - Check if entity is linked to any detected events\n\n### Tools to use:\n- `search_entities` with query=\""
      ++ promptInterp (promptArg args "entity_name")
      ++ "\""
      ++ (if promptTruthy (promptArg args "entity_type") then (", entity_type=\""
      ++ promptInterp (promptArg args "entity_type")
      ++ "\"") else "")
      ++ "\n- `get_entity` for the matched entity\n- `get_entity_relationships` for Wikidata connections\n- `get_entity_mentions` for recent messages\n\n### Key things to look for:\n- Sanctions status (OFAC, EU, UK lists)\n- PEP (Politically Exposed Person) flags\n- Corporate ownership chains\n- Recent activity patterns\n- Cross-channel mention frequency"),
   ("validate_claim", fun args =>
    "# Claim Validation: Message #"
      ++ promptInterp (promptArg args "message_id")
      ++ "\n\n## Validation Workflow\n\nI'll validate the claims in message #"
      ++ promptInterp (promptArg args "message_id")
      ++ " by:\n\n1. **Get Message Details** - Retrieve the full message with content and metadata\n2. **Cross-Reference RSS** - Find correlated news articles from trusted sources\n3. **Check Validation Status** - Get LLM validation result (confirms/contradicts/context)\n4. **Find Event Context** - Check if message is part of a verified event cluster\n\n### Tools to use:\n- `get_message` with message_id="
      ++ promptInterp (promptArg args "message_id")
      ++ "\n- `validate_message` to cross-reference with RSS\n- `get_message_correlations` for related articles grouped by type\n- `get_events_for_message` to find linked events\n\n### Validation Categories:\n- **confirms** - RSS article supports the Telegram claim\n- **contradicts** - RSS article refutes the claim\n- **context** - RSS provides additional context\n- **alternative** - RSS presents a different perspective\n- **none** - No relevant RSS articles found\n\n### Trust Indicators:\n- Event tier (rumor → unconfirmed → confirmed → verified)\n- Number of independent sources\n- Cross-affiliation validation (pro-UA and pro-RU sources agree)"),
   ("track_event", fun args =>
    "# Event Tracking"
      ++ (if promptTruthy (promptArg args "event_id") then (": Event #"
      ++ promptInterp (promptArg args "event_id")) else "")
      ++ "\n\n## Event Tracking Workflow\n\nI'll track this event through its lifecycle:\n\n1. **Get Event Details** - Retrieve event with contributing channels and messages\n2. **Build Timeline** - Combine Telegram messages and RSS articles chronologically\n3. **Analyze Sources** - Check channel affiliations and source diversity\n4. **Check Tier Status** - Understand verification level\n\n"
      ++ (if promptTruthy (promptArg args "event_id") then ("### Tools to use:\n- `get_event` with event_id="
      ++ promptInterp (promptArg args "event_id")
      ++ ", include_messages=true, include_sources=true\n- `get_event_timeline` for chronological view\n- `get_event_stats` for overall event statistics") else "")
      ++ "\n\n"
      ++ (if promptTruthy (promptArg args "search_query") then ("### Tools to use:\n- `list_events` with search=\""
      ++ promptInterp (promptArg args "search_query")
      ++ "\"\n- Then `get_event` and `get_event_timeline` for the relevant event") else "")
      ++ "\n\n### Event Tier Progression:\n| Tier | Criteria |\n|------|----------|\n| **rumor** | Single channel reporting |\n| **unconfirmed** | 2-3 channels, same affiliation |\n| **confirmed** | 3+ channels, cross-affiliation |\n| **verified** | Human-verified with evidence |\n\n### Key Analysis Points:\n- Time from first report to confirmation\n- Channel diversity (affiliations)\n- Geographic clustering\n- Claim consistency across sources"),
   ("analyze_channel", fun args =>
    "# Channel Analysis: Channel #"
      ++ promptInterp (promptArg args "channel_id")
      ++ "\n\n## Analysis Workflow\n\nI'll provide a comprehensive analysis of this channel:\n\n1. **Get Channel Profile** - Basic info, affiliation, verification status\n2. **Get Statistics** - Message counts, spam rate, topic distribution\n3. **Analyze Network** - Semantic clusters and content relationships\n4. **Map Influence** - Who forwards from/to this channel\n5. **Recent Activity** - High-importance messages from last 7 days\n\n### Tools to use:\n- `get_channel` with channel_id="
      ++ promptInterp (promptArg args "channel_id")
      ++ "\n- `get_channel_stats` for detailed statistics\n- `get_channel_network` for content graph\n- `get_channel_influence` for forward relationships\n- `search_messages` with channel_id="
      ++ promptInterp (promptArg args "channel_id")
      ++ ", importance_level=\"high\", days=7\n\n### Channel Metadata to Review:\n- **Affiliation**: russia, ukraine, neutral, unknown\n- **Source Type**: state_media, military_unit, journalist, osint_aggregator, etc.\n- **Folder Rule**: archive_all (important) vs selective_archive (filtered)\n- **Verified Badge**: Telegram verification status\n\n### Influence Indicators:\n- Forwarding relationships (who amplifies this channel)\n- Engagement patterns (views, forwards, reactions)\n- Cross-affiliation reach"),
   ("trace_narrative", fun args =>
    "# Narrative Tracing"
      ++ (if promptTruthy (promptArg args "message_id") then (": Starting from Message #"
      ++ promptInterp (promptArg args "message_id")) else "")
      ++ "\n\n## Narrative Tracing Workflow\n\nI'll trace how this narrative spreads across the platform:\n\n1. **Find Origin** - Identify the earliest instance of this narrative\n2. **Find Similar** - Use semantic search to find related messages\n3. **Map Propagation** - Track forwards and timing across channels\n4. **Analyze Reach** - Calculate engagement and cross-affiliation spread\n\n"
      ++ (if promptTruthy (promptArg args "message_id") then ("### Tools to use:\n- `get_message` with message_id="
      ++ promptInterp (promptArg args "message_id")
      ++ "\n- `find_similar_messages` to find semantic matches\n- `get_message_social_graph` for forward chain\n- `get_engagement_timeline` for virality pattern") else "")
      ++ "\n\n"
      ++ (if promptTruthy (promptArg args "search_query") then ("### Tools to use:\n- `semantic_search` with query=\""
      ++ promptInterp (promptArg args "search_query")
      ++ "\"\n- Then analyze the earliest result and trace forward") else "")
      ++ "\n\n### Propagation Indicators:\n- **Forward Chains**: Direct resharing with attribution\n- **Semantic Similarity**: Same content, different wording\n- **Temporal Clustering**: Multiple posts within short window\n- **Coordination Signals**: Near-simultaneous posting across channels"),
   ("daily_briefing", fun args =>
    "# Daily Intelligence Briefing\n\n## Briefing Parameters\n- **Time Window**: "
      ++ promptOr (promptArg args "hours") "24"
      ++ " hours\n"
      ++ (if promptTruthy (promptArg args "focus_topic") then ("- **Focus Topic**: "
      ++ promptInterp (promptArg args "focus_topic")) else "- **Focus**: All topics")
      ++ "\n\n## Briefing Workflow\n\nI'll compile a comprehensive daily briefing:\n\n1. **High-Priority Messages** - Important messages from the time window\n2. **Confirmed Events** - Events that reached confirmed/verified status\n3. **Topic Trends** - What topics are most active\n4. **Viral Content** - Most forwarded/engaged content\n5. **System Status** - Platform health and any issues\n\n### Tools to use:\n- `search_messages` with importance_level=\"high\", days=1"
      ++ (if promptTruthy (promptArg args "focus_topic") then (", topic=\""
      ++ promptInterp (promptArg args "focus_topic")
      ++ "\"") else "")
      ++ "\n- `list_events` with tier_status=\"confirmed\" or \"verified\", days=1\n- `get_topic_distribution` with days=1\n- `get_top_forwarded` with days=1\n- `get_platform_stats_overview` for system health\n\n### Topics Tracked:\ncombat, equipment, casualties, movements, infrastructure, humanitarian, diplomatic, intelligence, propaganda, units, locations, general"),
   ("geographic_sitrep", fun args =>
    "# Geographic Situation Report: "
      ++ promptInterp (promptArg args "location")
      ++ "\n\n## SITREP Parameters\n- **Location**: "
      ++ promptInterp (promptArg args "location")
      ++ "\n- **Time Window**: "
      ++ promptOr (promptArg args "days") "7"
      ++ " days\n\n## SITREP Workflow\n\nI'll compile a geographic situation report:\n\n1. **Geolocated Messages** - Messages with coordinates in this area\n2. **Event Clusters** - Detected events in the region\n3. **Activity Heatmap** - Density of activity over time\n4. **Location Suggestions** - Verify the exact location match\n\n### Tools to use:\n- `suggest_locations` with query=\""
      ++ promptInterp (promptArg args "location")
      ++ "\" to verify location\n- `unified_search` with location=\""
      ++ promptInterp (promptArg args "location")
      ++ "\", days="
      ++ promptOr (promptArg args "days") "7"
      ++ "\n- `get_map_messages` with bounds for the area\n- `get_map_clusters` for event locations\n- `get_map_heatmap` for activity density\n\n### Geographic Context:\n- Use location autocomplete to find exact coordinates\n- Bounding box format: \"minLng,minLat,maxLng,maxLat\"\n- Coordinates are (latitude, longitude) in database but (longitude, latitude) in GeoJSON"),
   ("platform_health_check", fun _ =>
    "# Platform Health Check\n\n## Health Check Workflow\n\nI'll perform a comprehensive platform health check:\n\n1. **Overall Status** - Platform dashboard and service health\n2. **Queue Health** - Redis worker queues and pending messages\n3. **Enrichment Tasks** - Status of all 13 enrichment workers\n4. **Data Quality** - Translation, embedding, and geolocation coverage\n5. **LLM Performance** - Ollama model health and latency\n\n### Tools to use:\n- `get_platform_dashboard` - Overview metrics\n- `get_platform_stats_overview` - Comprehensive stats\n- `get_worker_stats` - Queue health\n- `get_enrichment_tasks` - Task status\n- `get_data_quality_stats` - Coverage metrics\n- `get_metrics_llm` - LLM performance\n- `get_cache_stats` - Redis performance\n\n### Key Health Indicators:\n| Metric | Healthy | Warning | Critical |\n|--------|---------|---------|----------|\n| Queue Depth | < 100 | 100-1000 | > 1000 |\n| Processing Latency | < 1s | 1-5s | > 5s |\n| Translation Coverage | > 95% | 80-95% | < 80% |\n| LLM Availability | 100% | 95-99% | < 95% |"),
   ("find_viral_content", fun args =>
    "# Viral Content Discovery\n\n## Discovery Parameters\n- **Time Window**: "
      ++ promptOr (promptArg args "days") "7"
      ++ " days\n"
      ++ (if promptTruthy (promptArg args "topic") then ("- **Topic Filter**: "
      ++ promptInterp (promptArg args "topic")) else "- **Topics**: All")
      ++ "\n\n## Discovery Workflow\n\nI'll find viral content and influence patterns:\n\n1. **Top Forwarded** - Most forwarded messages\n2. **Top Influencers** - Channels with highest reach\n3. **Influence Network** - Cross-channel amplification patterns\n4. **Engagement Trends** - Messages with unusual engagement velocity\n\n### Tools to use:\n- `get_top_forwarded` with days="
      ++ promptOr (promptArg args "days") "7"
      ++ "\n- `get_top_influencers` with days="
      ++ promptOr (promptArg args "days") "7"
      ++ "\n- `get_influence_network` with days="
      ++ promptOr (promptArg args "days") "7"
      ++ "\n- `get_viral_posts` - Currently tracked viral posts\n"
      ++ (if promptTruthy (promptArg args "topic") then ("- Filter results by topic=\""
      ++ promptInterp (promptArg args "topic")
      ++ "\"") else "")
      ++ "\n\n### Virality Indicators:\n- **Views/hour** > 1000 = High velocity\n- **Forwards** > 50 = Significant reach\n- **Cross-affiliation** = Narrative breakthrough\n- **Comment count** > 20 = High engagement"),
   ("discover_connections", fun args =>
    "# Connection Discovery\n\n## Discovery Workflow\n\nI'll discover hidden connections and relationships:\n\n"
      ++ (if promptTruthy (promptArg args "start_entity") then ("### Starting from Entity: "
      ++ promptInterp (promptArg args "start_entity")
      ++ "\n- `search_entities` to find the entity\n- `get_entity_relationships` for Wikidata connections\n- `get_entity_mentions` for co-occurrence with other entities\n- Look for shared mentions in same messages") else "")
      ++ "\n\n"
      ++ (if promptTruthy (promptArg args "start_channel") then ("### Starting from Channel: "
      ++ promptInterp (promptArg args "start_channel")
      ++ "\n- `get_channel_influence` for forward relationships\n- `get_influence_network` for broader patterns\n- `get_channel_network` for semantic content clusters\n- Look for coordinated posting patterns") else "")
      ++ "\n\n### Connection Types:\n- **Entity → Entity**: Shared organizations, positions, transactions\n- **Channel → Channel**: Forward relationships, timing correlation\n- **Entity → Channel**: Frequent mentions, source attribution\n- **Cross-Affiliation**: Unexpected connections across opposing sides")]

/-- `getPromptContent` of src/prompts.ts: the expanded prompt text for a
prompt name and argument record.  Every case of the source `switch`
returns immediately, so the switch is dispatch to the first (only)
matching case of `promptCases`; the `default` case returns `Unknown
prompt: <name>`. -/
def getPromptContent (name : String) (args : List (String × String)) : String :=
  match promptCases.find? (fun c => c.1 == name) with
  | some c => c.2 args
  | none => "Unknown prompt: " ++ name

/-- The argument keys each prompt template of `getPromptContent` actually
references (in order of first reference); the default branch references
none. -/
def promptRefKeys (name : String) : List String :=
  if name = "investigate_entity" then ["entity_name", "entity_type"]
  else if name = "validate_claim" then ["message_id"]
  else if name = "track_event" then ["event_id", "search_query"]
  else if name = "analyze_channel" then ["channel_id"]
  else if name = "trace_narrative" then ["message_id", "search_query"]
  else if name = "daily_briefing" then ["hours", "focus_topic"]
  else if name = "geographic_sitrep" then ["location", "days"]
  else if name = "platform_health_check" then []
  else if name = "find_viral_content" then ["days", "topic"]
  else if name = "discover_connections" then ["start_entity", "start_channel"]
  else []

/-! ### Helper lemmas about the dispatcher -/

/-- A name with no dispatcher case falls through to the default case. -/
theorem handleToolCall_unknown (name : String) (args : Args)
    (h : name ∉ handlerCaseLabels) :
    handleToolCall name args = .error ("Unknown tool: " ++ name) := by
  have hn : dispatchCases.find? (fun c => c.1 == name) = none := by
    rw [List.find?_eq_none]
    intro c hc hbeq
    refine h ?_
    have hc1 : c.1 = name := by simpa using hbeq
    exact hc1 ▸ List.mem_map_of_mem (fun c => c.1) hc
  unfold handleToolCall
  rw [hn]

/-- A dispatcher case exists for a name iff the name is a case label. -/
theorem handleToolCall_isOk_iff (name : String) (args : Args) :
    (handleToolCall name args).isOk = true ↔ name ∈ handlerCaseLabels := by
  unfold handleToolCall handlerCaseLabels
  rcases hfc : dispatchCases.find? (fun c => c.1 == name) with _ | c <;> rw [hfc]
  · constructor
    · intro hh
      simp [Except.isOk, Except.toBool] at hh
    · intro hmem
      obtain ⟨c, hc, hc1⟩ := List.mem_map.mp hmem
      exact absurd (by simpa using hc1) (List.find?_eq_none.mp hfc c hc)
  · constructor
    · intro _
      have hc1 : c.1 = name := by simpa using List.find?_some hfc
      exact hc1 ▸ List.mem_map_of_mem (fun c => c.1) (List.mem_of_find?_eq_some hfc)
    · intro _
      rfl

/-- Every binding of the dispatch table issues a GET request. -/
theorem dispatchCases_get (c : String × (Args → ApiRequest)) (hcs : c ∈ dispatchCases) :
    ∀ args, (c.2 args).method = .GET := by
  simp only [dispatchCases, List.mem_cons, List.not_mem_nil, or_false] at hcs
  rcases hcs with rfl | hcs
  · exact fun _ => rfl
  rcases hcs with rfl | hcs
  · exact fun _ => rfl
  rcases hcs with rfl | hcs
  · exact fun _ => rfl
  rcases hcs with rfl | hcs
  · exact fun _ => rfl
  rcases hcs with rfl | hcs
  · exact fun _ => rfl
  rcases hcs with rfl | hcs
  · exact fun _ => rfl
  rcases hcs with rfl | hcs
  · exact fun _ => rfl
  rcases hcs with rfl | hcs
  · exact fun _ => rfl
  rcases hcs with rfl | hcs
  · exact fun _ => rfl
  rcases hcs with rfl | hcs
  · exact fun _ => rfl
  rcases hcs with rfl | hcs
  · exact fun _ => rfl
  rcases hcs with rfl | hcs
  · exact fun _ => rfl
  rcases hcs with rfl | hcs
  · exact fun _ => rfl
  rcases hcs with rfl | hcs
  · exact fun _ => rfl
  rcases hcs with rfl | hcs
  · exact fun _ => rfl
  rcases hcs with rfl | hcs
  · exact fun _ => rfl
  rcases hcs with rfl | hcs
  · exact fun _ => rfl
  rcases hcs with rfl | hcs
  · exact fun _ => rfl
  rcases hcs with rfl | hcs
  · exact fun _ => rfl
  rcases hcs with rfl | hcs
  · exact fun _ => rfl
  rcases hcs with rfl | hcs
  · exact fun _ => rfl
  rcases hcs with rfl | hcs
  · exact fun _ => rfl
  rcases hcs with rfl | hcs
  · exact fun _ => rfl
  rcases hcs with rfl | hcs
  · exact fun _ => rfl
  rcases hcs with rfl | hcs
  · exact fun _ => rfl
  rcases hcs with rfl | hcs
  · exact fun _ => rfl
  rcases hcs with rfl | hcs
  · exact fun _ => rfl
  rcases hcs with rfl | hcs
  · exact fun _ => rfl
  rcases hcs with rfl | hcs
  · exact fun _ => rfl
  rcases hcs with rfl | hcs
  · exact fun _ => rfl
  rcases hcs with rfl | hcs
  · exact fun _ => rfl
  rcases hcs with rfl | hcs
  · exact fun _ => rfl
  rcases hcs with rfl | hcs
  · exact fun _ => rfl
  rcases hcs with rfl | hcs
  · exact fun _ => rfl
  rcases hcs with rfl | hcs
  · exact fun _ => rfl
  rcases hcs with rfl | hcs
  · exact fun _ => rfl
  rcases hcs with rfl | hcs
  · exact fun _ => rfl
  rcases hcs with rfl | hcs
  · exact fun _ => rfl
  rcases hcs with rfl | hcs
  · exact fun _ => rfl
  rcases hcs with rfl | hcs
  · exact fun _ => rfl
  rcases hcs with rfl | hcs
  · exact fun _ => rfl
  rcases hcs with rfl | hcs
  · exact fun _ => rfl
  rcases hcs with rfl | hcs
  · exact fun _ => rfl
  rcases hcs with rfl | hcs
  · exact fun _ => rfl
  rcases hcs with rfl | hcs
  · exact fun _ => rfl
  rcases hcs with rfl | hcs
  · exact fun _ => rfl
  rcases hcs with rfl | hcs
  · exact fun _ => rfl
  rcases hcs with rfl | hcs
  · exact fun _ => rfl
  rcases hcs with rfl | hcs
  · exact fun _ => rfl
  rcases hcs with rfl | hcs
  · exact fun _ => rfl
  rcases hcs with rfl | hcs
  · exact fun _ => rfl
  rcases hcs with rfl | hcs
  · exact fun _ => rfl
  rcases hcs with rfl | hcs
  · exact fun _ => rfl
  rcases hcs with rfl | hcs
  · exact fun _ => rfl
  rcases hcs with rfl | hcs
  · exact fun _ => rfl
  rcases hcs with rfl | hcs
  · exact fun _ => rfl
  rcases hcs with rfl | hcs
  · exact fun _ => rfl
  rcases hcs with rfl | hcs
  · exact fun _ => rfl
  rcases hcs with rfl | hcs
  · exact fun _ => rfl
  rcases hcs with rfl | hcs
  · exact fun _ => rfl
  rcases hcs with rfl | hcs
  · exact fun _ => rfl
  rcases hcs with rfl | hcs
  · exact fun _ => rfl
  rcases hcs with rfl | hcs
  · exact fun _ => rfl
  rcases hcs with rfl | hcs
  · exact fun _ => rfl
  rcases hcs with rfl | hcs
  · exact fun _ => rfl
  rcases hcs with rfl | hcs
  · exact fun _ => rfl
  rcases hcs with rfl | hcs
  · exact fun _ => rfl
  rcases hcs with rfl | hcs
  · exact fun _ => rfl
  rcases hcs with rfl | hcs
  · exact fun _ => rfl
  rcases hcs with rfl | hcs
  · exact fun _ => rfl
  subst hcs
  exact fun _ => rfl

/-- Every request a dispatcher case issues is a GET. -/
theorem handleToolCall_method_get (name : String) (args : Args) (req : ApiRequest)
    (h : handleToolCall name args = .ok req) : req.method = .GET := by
  unfold handleToolCall at h
  rcases hfc : dispatchCases.find? (fun c => c.1 == name) with _ | c <;> rw [hfc] at h
  · exact Except.noConfusion h
  · injection h with e
    subst e
    exact dispatchCases_get c (List.mem_of_find?_eq_some hfc) args

/-- Each binding of the dispatch table depends only on the argument-bag
keys it reads, which are its tool's `bindingReadKeys`. -/
theorem dispatchCases_reads (label : String) (f : Args → ApiRequest)
    (hcs : (label, f) ∈ dispatchCases) (a₁ a₂ : Args)
    (h : ∀ k ∈ bindingReadKeys label, getArg a₁ k = getArg a₂ k) :
    f a₁ = f a₂ := by
  simp only [dispatchCases, List.mem_cons, List.not_mem_nil, or_false,
    Prod.mk.injEq] at hcs
  rcases hcs with ⟨rfl, rfl⟩ | hcs
  · rw [show bindingReadKeys "search_messages" = ["query", "channel_id", "days", "date_from", "date_to", "importance_level", "topic", "has_media", "media_type", "language", "min_views", "min_forwards", "channel_folder", "page", "page_size"] from rfl] at h
    beta_reduce
    rw [h "query" (List.mem_cons_self _ _), h "channel_id" (List.mem_cons_of_mem _ (List.mem_cons_self _ _)), h "days" (List.mem_cons_of_mem _ (List.mem_cons_of_mem _ (List.mem_cons_self _ _))), h "date_from" (List.mem_cons_of_mem _ (List.mem_cons_of_mem _ (List.mem_cons_of_mem _ (List.mem_cons_self _ _)))), h "date_to" (List.mem_cons_of_mem _ (List.mem_cons_of_mem _ (List.mem_cons_of_mem _ (List.mem_cons_of_mem _ (List.mem_cons_self _ _))))), h "importance_level" (List.mem_cons_of_mem _ (List.mem_cons_of_mem _ (List.mem_cons_of_mem _ (List.mem_cons_of_mem _ (List.mem_cons_of_mem _ (List.mem_cons_self _ _)))))), h "topic" (List.mem_cons_of_mem _ (List.mem_cons_of_mem _ (List.mem_cons_of_mem _ (List.mem_cons_of_mem _ (List.mem_cons_of_mem _ (List.mem_cons_of_mem _ (List.mem_cons_self _ _))))))), h "has_media" (List.mem_cons_of_mem _ (List.mem_cons_of_mem _ (List.mem_cons_of_mem _ (List.mem_cons_of_mem _ (List.mem_cons_of_mem _ (List.mem_cons_of_mem _ (List.mem_cons_of_mem _ (List.mem_cons_self _ _)))))))), h "media_type" (List.mem_cons_of_mem _ (List.mem_cons_of_mem _ (List.mem_cons_of_mem _ (List.mem_cons_of_mem _ (List.mem_cons_of_mem _ (List.mem_cons_of_mem _ (List.mem_cons_of_mem _ (List.mem_cons_of_mem _ (List.mem_cons_self _ _))))))))), h "language" (List.mem_cons_of_mem _ (List.mem_cons_of_mem _ (List.mem_cons_of_mem _ (List.mem_cons_of_mem _ (List.mem_cons_of_mem _ (List.mem_cons_of_mem _ (List.mem_cons_of_mem _ (List.mem_cons_of_mem _ (List.mem_cons_of_mem _ (List.mem_cons_self _ _)))))))))), h "min_views" (List.mem_cons_of_mem _ (List.mem_cons_of_mem _ (List.mem_cons_of_mem _ (List.mem_cons_of_mem _ (List.mem_cons_of_mem _ (List.mem_cons_of_mem _ (List.mem_cons_of_mem _ (List.mem_cons_of_mem _ (List.mem_cons_of_mem _ (List.mem_cons_of_mem _ (List.mem_cons_self _ _))))))))))), h "min_forwards" (List.mem_cons_of_mem _ (List.mem_cons_of_mem _ (List.mem_cons_of_mem _ (List.mem_cons_of_mem _ (List.mem_cons_of_mem _ (List.mem_cons_of_mem _ (List.mem_cons_of_mem _ (List.mem_cons_of_mem _ (List.mem_cons_of_mem _ (List.mem_cons_of_mem _ (List.mem_cons_of_mem _ (List.mem_cons_self _ _)))))))))))), h "channel_folder" (List.mem_cons_of_mem _ (List.mem_cons_of_mem _ (List.mem_cons_of_mem _ (List.mem_cons_of_mem _ (List.mem_cons_of_mem _ (List.mem_cons_of_mem _ (List.mem_cons_of_mem _ (List.mem_cons_of_mem _ (List.mem_cons_of_mem _ (List.mem_cons_of_mem _ (List.mem_cons_of_mem _ (List.mem_cons_of_mem _ (List.mem_cons_self _ _))))))))))))), h "page" (List.mem_cons_of_mem _ (List.mem_cons_of_mem _ (List.mem_cons_of_mem _ (List.mem_cons_of_mem _ (List.mem_cons_of_mem _ (List.mem_cons_of_mem _ (List.mem_cons_of_mem _ (List.mem_cons_of_mem _ (List.mem_cons_of_mem _ (List.mem_cons_of_mem _ (List.mem_cons_of_mem _ (List.mem_cons_of_mem _ (List.mem_cons_of_mem _ (List.mem_cons_self _ _)))))))))))))), h "page_size" (List.mem_cons_of_mem _ (List.mem_cons_of_mem _ (List.mem_cons_of_mem _ (List.mem_cons_of_mem _ (List.mem_cons_of_mem _ (List.mem_cons_of_mem _ (List.mem_cons_of_mem _ (List.mem_cons_of_mem _ (List.mem_cons_of_mem _ (List.mem_cons_of_mem _ (List.mem_cons_of_mem _ (List.mem_cons_of_mem _ (List.mem_cons_of_mem _ (List.mem_cons_of_mem _ (List.mem_cons_self _ _)))))))))))))))]
  rcases hcs with ⟨rfl, rfl⟩ | hcs
  · rw [show bindingReadKeys "get_message" = ["message_id"] from rfl] at h
    beta_reduce
    rw [h "message_id" (List.mem_cons_self _ _)]
  rcases hcs with ⟨rfl, rfl⟩ | hcs
  · rw [show bindingReadKeys "get_message_album" = ["message_id"] from rfl] at h
    beta_reduce
    rw [h "message_id" (List.mem_cons_self _ _)]
  rcases hcs with ⟨rfl, rfl⟩ | hcs
  · rw [show bindingReadKeys "get_message_network" = ["message_id", "include_similar", "similarity_threshold", "max_similar"] from rfl] at h
    beta_reduce
    rw [h "message_id" (List.mem_cons_self _ _), h "include_similar" (List.mem_cons_of_mem _ (List.mem_cons_self _ _)), h "similarity_threshold" (List.mem_cons_of_mem _ (List.mem_cons_of_mem _ (List.mem_cons_self _ _))), h "max_similar" (List.mem_cons_of_mem _ (List.mem_cons_of_mem _ (List.mem_cons_of_mem _ (List.mem_cons_self _ _))))]
  rcases hcs with ⟨rfl, rfl⟩ | hcs
  · rw [show bindingReadKeys "get_message_timeline" = ["message_id", "before_count", "after_count", "same_channel_only", "use_semantic", "use_events", "similarity_threshold"] from rfl] at h
    beta_reduce
    rw [h "message_id" (List.mem_cons_self _ _), h "before_count" (List.mem_cons_of_mem _ (List.mem_cons_self _ _)), h "after_count" (List.mem_cons_of_mem _ (List.mem_cons_of_mem _ (List.mem_cons_self _ _))), h "same_channel_only" (List.mem_cons_of_mem _ (List.mem_cons_of_mem _ (List.mem_cons_of_mem _ (List.mem_cons_self _ _)))), h "use_semantic" (List.mem_cons_of_mem _ (List.mem_cons_of_mem _ (List.mem_cons_of_mem _ (List.mem_cons_of_mem _ (List.mem_cons_self _ _))))), h "use_events" (List.mem_cons_of_mem _ (List.mem_cons_of_mem _ (List.mem_cons_of_mem _ (List.mem_cons_of_mem _ (List.mem_cons_of_mem _ (List.mem_cons_self _ _)))))), h "similarity_threshold" (List.mem_cons_of_mem _ (List.mem_cons_of_mem _ (List.mem_cons_of_mem _ (List.mem_cons_of_mem _ (List.mem_cons_of_mem _ (List.mem_cons_of_mem _ (List.mem_cons_self _ _)))))))]
  rcases hcs with ⟨rfl, rfl⟩ | hcs
  · rw [show bindingReadKeys "semantic_search" = ["query", "similarity_threshold", "limit", "channel_id", "importance_level", "days"] from rfl] at h
    beta_reduce
    rw [h "query" (List.mem_cons_self _ _), h "similarity_threshold" (List.mem_cons_of_mem _ (List.mem_cons_self _ _)), h "limit" (List.mem_cons_of_mem _ (List.mem_cons_of_mem _ (List.mem_cons_self _ _))), h "channel_id" (List.mem_cons_of_mem _ (List.mem_cons_of_mem _ (List.mem_cons_of_mem _ (List.mem_cons_self _ _)))), h "importance_level" (List.mem_cons_of_mem _ (List.mem_cons_of_mem _ (List.mem_cons_of_mem _ (List.mem_cons_of_mem _ (List.mem_cons_self _ _))))), h "days" (List.mem_cons_of_mem _ (List.mem_cons_of_mem _ (List.mem_cons_of_mem _ (List.mem_cons_of_mem _ (List.mem_cons_of_mem _ (List.mem_cons_self _ _))))))]
  rcases hcs with ⟨rfl, rfl⟩ | hcs
  · rw [show bindingReadKeys "find_similar_messages" = ["message_id", "similarity_threshold", "limit"] from rfl] at h
    beta_reduce
    rw [h "message_id" (List.mem_cons_self _ _), h "similarity_threshold" (List.mem_cons_of_mem _ (List.mem_cons_self _ _)), h "limit" (List.mem_cons_of_mem _ (List.mem_cons_of_mem _ (List.mem_cons_self _ _)))]
  rcases hcs with ⟨rfl, rfl⟩ | hcs
  · rw [show bindingReadKeys "get_tags" = ["tag_type", "limit"] from rfl] at h
    beta_reduce
    rw [h "tag_type" (List.mem_cons_self _ _), h "limit" (List.mem_cons_of_mem _ (List.mem_cons_self _ _))]
  rcases hcs with ⟨rfl, rfl⟩ | hcs
  · rw [show bindingReadKeys "search_by_tags" = ["tags", "match_all", "limit"] from rfl] at h
    beta_reduce
    rw [h "tags" (List.mem_cons_self _ _), h "match_all" (List.mem_cons_of_mem _ (List.mem_cons_self _ _)), h "limit" (List.mem_cons_of_mem _ (List.mem_cons_of_mem _ (List.mem_cons_self _ _)))]
  rcases hcs with ⟨rfl, rfl⟩ | hcs
  · rw [show bindingReadKeys "unified_search" = ["query", "mode", "types", "limit_per_type", "days", "location", "lat", "lng", "radius_km"] from rfl] at h
    beta_reduce
    rw [h "query" (List.mem_cons_self _ _), h "mode" (List.mem_cons_of_mem _ (List.mem_cons_self _ _)), h "types" (List.mem_cons_of_mem _ (List.mem_cons_of_mem _ (List.mem_cons_self _ _))), h "limit_per_type" (List.mem_cons_of_mem _ (List.mem_cons_of_mem _ (List.mem_cons_of_mem _ (List.mem_cons_self _ _)))), h "days" (List.mem_cons_of_mem _ (List.mem_cons_of_mem _ (List.mem_cons_of_mem _ (List.mem_cons_of_mem _ (List.mem_cons_self _ _))))), h "location" (List.mem_cons_of_mem _ (List.mem_cons_of_mem _ (List.mem_cons_of_mem _ (List.mem_cons_of_mem _ (List.mem_cons_of_mem _ (List.mem_cons_self _ _)))))), h "lat" (List.mem_cons_of_mem _ (List.mem_cons_of_mem _ (List.mem_cons_of_mem _ (List.mem_cons_of_mem _ (List.mem_cons_of_mem _ (List.mem_cons_of_mem _ (List.mem_cons_self _ _))))))), h "lng" (List.mem_cons_of_mem _ (List.mem_cons_of_mem _ (List.mem_cons_of_mem _ (List.mem_cons_of_mem _ (List.mem_cons_of_mem _ (List.mem_cons_of_mem _ (List.mem_cons_of_mem _ (List.mem_cons_self _ _)))))))), h "radius_km" (List.mem_cons_of_mem _ (List.mem_cons_of_mem _ (List.mem_cons_of_mem _ (List.mem_cons_of_mem _ (List.mem_cons_of_mem _ (List.mem_cons_of_mem _ (List.mem_cons_of_mem _ (List.mem_cons_of_mem _ (List.mem_cons_self _ _)))))))))]
  rcases hcs with ⟨rfl, rfl⟩ | hcs
  · rw [show bindingReadKeys "list_channels" = ["active_only", "rule", "folder", "verified_only", "limit"] from rfl] at h
    beta_reduce
    rw [h "active_only" (List.mem_cons_self _ _), h "rule" (List.mem_cons_of_mem _ (List.mem_cons_self _ _)), h "folder" (List.mem_cons_of_mem _ (List.mem_cons_of_mem _ (List.mem_cons_self _ _))), h "verified_only" (List.mem_cons_of_mem _ (List.mem_cons_of_mem _ (List.mem_cons_of_mem _ (List.mem_cons_self _ _)))), h "limit" (List.mem_cons_of_mem _ (List.mem_cons_of_mem _ (List.mem_cons_of_mem _ (List.mem_cons_of_mem _ (List.mem_cons_self _ _)))))]
  rcases hcs with ⟨rfl, rfl⟩ | hcs
  · rw [show bindingReadKeys "get_channel" = ["channel_id"] from rfl] at h
    beta_reduce
    rw [h "channel_id" (List.mem_cons_self _ _)]
  rcases hcs with ⟨rfl, rfl⟩ | hcs
  · rw [show bindingReadKeys "get_channel_stats" = ["channel_id"] from rfl] at h
    beta_reduce
    rw [h "channel_id" (List.mem_cons_self _ _)]
  rcases hcs with ⟨rfl, rfl⟩ | hcs
  · rw [show bindingReadKeys "get_channel_network" = ["channel_id", "similarity_threshold", "max_messages", "time_window", "include_clusters"] from rfl] at h
    beta_reduce
    rw [h "channel_id" (List.mem_cons_self _ _), h "similarity_threshold" (List.mem_cons_of_mem _ (List.mem_cons_self _ _)), h "max_messages" (List.mem_cons_of_mem _ (List.mem_cons_of_mem _ (List.mem_cons_self _ _))), h "time_window" (List.mem_cons_of_mem _ (List.mem_cons_of_mem _ (List.mem_cons_of_mem _ (List.mem_cons_self _ _)))), h "include_clusters" (List.mem_cons_of_mem _ (List.mem_cons_of_mem _ (List.mem_cons_of_mem _ (List.mem_cons_of_mem _ (List.mem_cons_self _ _)))))]
  rcases hcs with ⟨rfl, rfl⟩ | hcs
  · rw [show bindingReadKeys "get_message_social_graph" = ["message_id", "include_forwards", "include_replies", "max_depth", "max_comments"] from rfl] at h
    beta_reduce
    rw [h "message_id" (List.mem_cons_self _ _), h "include_forwards" (List.mem_cons_of_mem _ (List.mem_cons_self _ _)), h "include_replies" (List.mem_cons_of_mem _ (List.mem_cons_of_mem _ (List.mem_cons_self _ _))), h "max_depth" (List.mem_cons_of_mem _ (List.mem_cons_of_mem _ (List.mem_cons_of_mem _ (List.mem_cons_self _ _)))), h "max_comments" (List.mem_cons_of_mem _ (List.mem_cons_of_mem _ (List.mem_cons_of_mem _ (List.mem_cons_of_mem _ (List.mem_cons_self _ _)))))]
  rcases hcs with ⟨rfl, rfl⟩ | hcs
  · rw [show bindingReadKeys "get_channel_influence" = ["channel_id"] from rfl] at h
    beta_reduce
    rw [h "channel_id" (List.mem_cons_self _ _)]
  rcases hcs with ⟨rfl, rfl⟩ | hcs
  · rw [show bindingReadKeys "get_influence_network" = ["min_forwards", "days", "limit"] from rfl] at h
    beta_reduce
    rw [h "min_forwards" (List.mem_cons_self _ _), h "days" (List.mem_cons_of_mem _ (List.mem_cons_self _ _)), h "limit" (List.mem_cons_of_mem _ (List.mem_cons_of_mem _ (List.mem_cons_self _ _)))]
  rcases hcs with ⟨rfl, rfl⟩ | hcs
  · rw [show bindingReadKeys "get_engagement_timeline" = ["message_id"] from rfl] at h
    beta_reduce
    rw [h "message_id" (List.mem_cons_self _ _)]
  rcases hcs with ⟨rfl, rfl⟩ | hcs
  · rw [show bindingReadKeys "get_message_comments" = ["message_id", "limit", "offset"] from rfl] at h
    beta_reduce
    rw [h "message_id" (List.mem_cons_self _ _), h "limit" (List.mem_cons_of_mem _ (List.mem_cons_self _ _)), h "offset" (List.mem_cons_of_mem _ (List.mem_cons_of_mem _ (List.mem_cons_self _ _)))]
  rcases hcs with ⟨rfl, rfl⟩ | hcs
  · rw [show bindingReadKeys "get_top_forwarded" = ["days", "limit"] from rfl] at h
    beta_reduce
    rw [h "days" (List.mem_cons_self _ _), h "limit" (List.mem_cons_of_mem _ (List.mem_cons_self _ _))]
  rcases hcs with ⟨rfl, rfl⟩ | hcs
  · rw [show bindingReadKeys "get_top_influencers" = ["days", "limit"] from rfl] at h
    beta_reduce
    rw [h "days" (List.mem_cons_self _ _), h "limit" (List.mem_cons_of_mem _ (List.mem_cons_self _ _))]
  rcases hcs with ⟨rfl, rfl⟩ | hcs
  · rw [show bindingReadKeys "search_entities" = ["query", "source", "entity_type", "limit"] from rfl] at h
    beta_reduce
    rw [h "query" (List.mem_cons_self _ _), h "source" (List.mem_cons_of_mem _ (List.mem_cons_self _ _)), h "entity_type" (List.mem_cons_of_mem _ (List.mem_cons_of_mem _ (List.mem_cons_self _ _))), h "limit" (List.mem_cons_of_mem _ (List.mem_cons_of_mem _ (List.mem_cons_of_mem _ (List.mem_cons_self _ _))))]
  rcases hcs with ⟨rfl, rfl⟩ | hcs
  · rw [show bindingReadKeys "get_entity" = ["source", "entity_id", "include_linked"] from rfl] at h
    beta_reduce
    rw [h "source" (List.mem_cons_self _ _), h "entity_id" (List.mem_cons_of_mem _ (List.mem_cons_self _ _)), h "include_linked" (List.mem_cons_of_mem _ (List.mem_cons_of_mem _ (List.mem_cons_self _ _)))]
  rcases hcs with ⟨rfl, rfl⟩ | hcs
  · rw [show bindingReadKeys "get_entity_relationships" = ["source", "entity_id", "refresh"] from rfl] at h
    beta_reduce
    rw [h "source" (List.mem_cons_self _ _), h "entity_id" (List.mem_cons_of_mem _ (List.mem_cons_self _ _)), h "refresh" (List.mem_cons_of_mem _ (List.mem_cons_of_mem _ (List.mem_cons_self _ _)))]
  rcases hcs with ⟨rfl, rfl⟩ | hcs
  · rw [show bindingReadKeys "get_entity_mentions" = ["source", "entity_id", "limit"] from rfl] at h
    beta_reduce
    rw [h "source" (List.mem_cons_self _ _), h "entity_id" (List.mem_cons_of_mem _ (List.mem_cons_self _ _)), h "limit" (List.mem_cons_of_mem _ (List.mem_cons_of_mem _ (List.mem_cons_self _ _)))]
  rcases hcs with ⟨rfl, rfl⟩ | hcs
  · rw [show bindingReadKeys "list_events" = ["page", "page_size", "tab", "tier_status", "event_type", "search", "search_mode"] from rfl] at h
    beta_reduce
    rw [h "page" (List.mem_cons_self _ _), h "page_size" (List.mem_cons_of_mem _ (List.mem_cons_self _ _)), h "tab" (List.mem_cons_of_mem _ (List.mem_cons_of_mem _ (List.mem_cons_self _ _))), h "tier_status" (List.mem_cons_of_mem _ (List.mem_cons_of_mem _ (List.mem_cons_of_mem _ (List.mem_cons_self _ _)))), h "event_type" (List.mem_cons_of_mem _ (List.mem_cons_of_mem _ (List.mem_cons_of_mem _ (List.mem_cons_of_mem _ (List.mem_cons_self _ _))))), h "search" (List.mem_cons_of_mem _ (List.mem_cons_of_mem _ (List.mem_cons_of_mem _ (List.mem_cons_of_mem _ (List.mem_cons_of_mem _ (List.mem_cons_self _ _)))))), h "search_mode" (List.mem_cons_of_mem _ (List.mem_cons_of_mem _ (List.mem_cons_of_mem _ (List.mem_cons_of_mem _ (List.mem_cons_of_mem _ (List.mem_cons_of_mem _ (List.mem_cons_self _ _)))))))]
  rcases hcs with ⟨rfl, rfl⟩ | hcs
  · rfl
  rcases hcs with ⟨rfl, rfl⟩ | hcs
  · rw [show bindingReadKeys "get_event" = ["event_id", "include_messages", "include_sources", "message_limit"] from rfl] at h
    beta_reduce
    rw [h "event_id" (List.mem_cons_self _ _), h "include_messages" (List.mem_cons_of_mem _ (List.mem_cons_self _ _)), h "include_sources" (List.mem_cons_of_mem _ (List.mem_cons_of_mem _ (List.mem_cons_self _ _))), h "message_limit" (List.mem_cons_of_mem _ (List.mem_cons_of_mem _ (List.mem_cons_of_mem _ (List.mem_cons_self _ _))))]
  rcases hcs with ⟨rfl, rfl⟩ | hcs
  · rw [show bindingReadKeys "get_event_timeline" = ["event_id"] from rfl] at h
    beta_reduce
    rw [h "event_id" (List.mem_cons_self _ _)]
  rcases hcs with ⟨rfl, rfl⟩ | hcs
  · rw [show bindingReadKeys "get_events_for_message" = ["message_id"] from rfl] at h
    beta_reduce
    rw [h "message_id" (List.mem_cons_self _ _)]
  rcases hcs with ⟨rfl, rfl⟩ | hcs
  · rw [show bindingReadKeys "get_timeline_stats" = ["granularity", "channel_id", "topic", "importance_level", "days"] from rfl] at h
    beta_reduce
    rw [h "granularity" (List.mem_cons_self _ _), h "channel_id" (List.mem_cons_of_mem _ (List.mem_cons_self _ _)), h "topic" (List.mem_cons_of_mem _ (List.mem_cons_of_mem _ (List.mem_cons_self _ _))), h "importance_level" (List.mem_cons_of_mem _ (List.mem_cons_of_mem _ (List.mem_cons_of_mem _ (List.mem_cons_self _ _)))), h "days" (List.mem_cons_of_mem _ (List.mem_cons_of_mem _ (List.mem_cons_of_mem _ (List.mem_cons_of_mem _ (List.mem_cons_self _ _)))))]
  rcases hcs with ⟨rfl, rfl⟩ | hcs
  · rw [show bindingReadKeys "get_topic_distribution" = ["days", "limit"] from rfl] at h
    beta_reduce
    rw [h "days" (List.mem_cons_self _ _), h "limit" (List.mem_cons_of_mem _ (List.mem_cons_self _ _))]
  rcases hcs with ⟨rfl, rfl⟩ | hcs
  · rw [show bindingReadKeys "get_language_distribution" = ["days"] from rfl] at h
    beta_reduce
    rw [h "days" (List.mem_cons_self _ _)]
  rcases hcs with ⟨rfl, rfl⟩ | hcs
  · rw [show bindingReadKeys "get_channel_analytics" = ["days", "limit"] from rfl] at h
    beta_reduce
    rw [h "days" (List.mem_cons_self _ _), h "limit" (List.mem_cons_of_mem _ (List.mem_cons_self _ _))]
  rcases hcs with ⟨rfl, rfl⟩ | hcs
  · rw [show bindingReadKeys "get_activity_heatmap" = ["days"] from rfl] at h
    beta_reduce
    rw [h "days" (List.mem_cons_self _ _)]
  rcases hcs with ⟨rfl, rfl⟩ | hcs
  · rw [show bindingReadKeys "get_entity_analytics" = ["days", "limit"] from rfl] at h
    beta_reduce
    rw [h "days" (List.mem_cons_self _ _), h "limit" (List.mem_cons_of_mem _ (List.mem_cons_self _ _))]
  rcases hcs with ⟨rfl, rfl⟩ | hcs
  · rfl
  rcases hcs with ⟨rfl, rfl⟩ | hcs
  · rw [show bindingReadKeys "get_map_messages" = ["bounds", "zoom", "cluster", "cluster_grid_size", "days", "include_confidence"] from rfl] at h
    beta_reduce
    rw [h "bounds" (List.mem_cons_self _ _), h "zoom" (List.mem_cons_of_mem _ (List.mem_cons_self _ _)), h "cluster" (List.mem_cons_of_mem _ (List.mem_cons_of_mem _ (List.mem_cons_self _ _))), h "cluster_grid_size" (List.mem_cons_of_mem _ (List.mem_cons_of_mem _ (List.mem_cons_of_mem _ (List.mem_cons_self _ _)))), h "days" (List.mem_cons_of_mem _ (List.mem_cons_of_mem _ (List.mem_cons_of_mem _ (List.mem_cons_of_mem _ (List.mem_cons_self _ _))))), h "include_confidence" (List.mem_cons_of_mem _ (List.mem_cons_of_mem _ (List.mem_cons_of_mem _ (List.mem_cons_of_mem _ (List.mem_cons_of_mem _ (List.mem_cons_self _ _))))))]
  rcases hcs with ⟨rfl, rfl⟩ | hcs
  · rw [show bindingReadKeys "get_map_clusters" = ["bounds", "tier_status", "days"] from rfl] at h
    beta_reduce
    rw [h "bounds" (List.mem_cons_self _ _), h "tier_status" (List.mem_cons_of_mem _ (List.mem_cons_self _ _)), h "days" (List.mem_cons_of_mem _ (List.mem_cons_of_mem _ (List.mem_cons_self _ _)))]
  rcases hcs with ⟨rfl, rfl⟩ | hcs
  · rw [show bindingReadKeys "get_map_events" = ["bounds"] from rfl] at h
    beta_reduce
    rw [h "bounds" (List.mem_cons_self _ _)]
  rcases hcs with ⟨rfl, rfl⟩ | hcs
  · rw [show bindingReadKeys "get_map_heatmap" = ["zoom", "bounds", "grid_size"] from rfl] at h
    beta_reduce
    rw [h "zoom" (List.mem_cons_self _ _), h "bounds" (List.mem_cons_of_mem _ (List.mem_cons_self _ _)), h "grid_size" (List.mem_cons_of_mem _ (List.mem_cons_of_mem _ (List.mem_cons_self _ _)))]
  rcases hcs with ⟨rfl, rfl⟩ | hcs
  · rw [show bindingReadKeys "suggest_locations" = ["query", "limit"] from rfl] at h
    beta_reduce
    rw [h "query" (List.mem_cons_self _ _), h "limit" (List.mem_cons_of_mem _ (List.mem_cons_self _ _))]
  rcases hcs with ⟨rfl, rfl⟩ | hcs
  · rw [show bindingReadKeys "reverse_geocode" = ["lat", "lng"] from rfl] at h
    beta_reduce
    rw [h "lat" (List.mem_cons_self _ _), h "lng" (List.mem_cons_of_mem _ (List.mem_cons_self _ _))]
  rcases hcs with ⟨rfl, rfl⟩ | hcs
  · rw [show bindingReadKeys "get_unified_stream" = ["limit", "sources", "categories", "importance_level", "hours"] from rfl] at h
    beta_reduce
    rw [h "limit" (List.mem_cons_self _ _), h "sources" (List.mem_cons_of_mem _ (List.mem_cons_self _ _)), h "categories" (List.mem_cons_of_mem _ (List.mem_cons_of_mem _ (List.mem_cons_self _ _))), h "importance_level" (List.mem_cons_of_mem _ (List.mem_cons_of_mem _ (List.mem_cons_of_mem _ (List.mem_cons_self _ _)))), h "hours" (List.mem_cons_of_mem _ (List.mem_cons_of_mem _ (List.mem_cons_of_mem _ (List.mem_cons_of_mem _ (List.mem_cons_self _ _)))))]
  rcases hcs with ⟨rfl, rfl⟩ | hcs
  · rw [show bindingReadKeys "validate_message" = ["message_id"] from rfl] at h
    beta_reduce
    rw [h "message_id" (List.mem_cons_self _ _)]
  rcases hcs with ⟨rfl, rfl⟩ | hcs
  · rw [show bindingReadKeys "get_message_correlations" = ["message_id"] from rfl] at h
    beta_reduce
    rw [h "message_id" (List.mem_cons_self _ _)]
  rcases hcs with ⟨rfl, rfl⟩ | hcs
  · rw [show bindingReadKeys "get_media_gallery" = ["channel_id", "media_type", "date_from", "date_to", "limit", "offset"] from rfl] at h
    beta_reduce
    rw [h "channel_id" (List.mem_cons_self _ _), h "media_type" (List.mem_cons_of_mem _ (List.mem_cons_self _ _)), h "date_from" (List.mem_cons_of_mem _ (List.mem_cons_of_mem _ (List.mem_cons_self _ _))), h "date_to" (List.mem_cons_of_mem _ (List.mem_cons_of_mem _ (List.mem_cons_of_mem _ (List.mem_cons_self _ _)))), h "limit" (List.mem_cons_of_mem _ (List.mem_cons_of_mem _ (List.mem_cons_of_mem _ (List.mem_cons_of_mem _ (List.mem_cons_self _ _))))), h "offset" (List.mem_cons_of_mem _ (List.mem_cons_of_mem _ (List.mem_cons_of_mem _ (List.mem_cons_of_mem _ (List.mem_cons_of_mem _ (List.mem_cons_self _ _))))))]
  rcases hcs with ⟨rfl, rfl⟩ | hcs
  · rfl
  rcases hcs with ⟨rfl, rfl⟩ | hcs
  · rfl
  rcases hcs with ⟨rfl, rfl⟩ | hcs
  · rfl
  rcases hcs with ⟨rfl, rfl⟩ | hcs
  · rw [show bindingReadKeys "get_processing_stats" = ["hours"] from rfl] at h
    beta_reduce
    rw [h "hours" (List.mem_cons_self _ _)]
  rcases hcs with ⟨rfl, rfl⟩ | hcs
  · rfl
  rcases hcs with ⟨rfl, rfl⟩ | hcs
  · rfl
  rcases hcs with ⟨rfl, rfl⟩ | hcs
  · rfl
  rcases hcs with ⟨rfl, rfl⟩ | hcs
  · rfl
  rcases hcs with ⟨rfl, rfl⟩ | hcs
  · rfl
  rcases hcs with ⟨rfl, rfl⟩ | hcs
  · rfl
  rcases hcs with ⟨rfl, rfl⟩ | hcs
  · rfl
  rcases hcs with ⟨rfl, rfl⟩ | hcs
  · rfl
  rcases hcs with ⟨rfl, rfl⟩ | hcs
  · rfl
  rcases hcs with ⟨rfl, rfl⟩ | hcs
  · rfl
  rcases hcs with ⟨rfl, rfl⟩ | hcs
  · rfl
  rcases hcs with ⟨rfl, rfl⟩ | hcs
  · rfl
  rcases hcs with ⟨rfl, rfl⟩ | hcs
  · rfl
  rcases hcs with ⟨rfl, rfl⟩ | hcs
  · rfl
  rcases hcs with ⟨rfl, rfl⟩ | hcs
  · rfl
  rcases hcs with ⟨rfl, rfl⟩ | hcs
  · rfl
  rcases hcs with ⟨rfl, rfl⟩ | hcs
  · rfl
  rcases hcs with ⟨rfl, rfl⟩ | hcs
  · rfl
  rcases hcs with ⟨rfl, rfl⟩ | hcs
  · rfl
  obtain ⟨rfl, rfl⟩ := hcs
  rfl

/-- The appending fold of `serializeParams` over any accumulator. -/
theorem serializeParams_go (l : List (String × JsVal)) (acc : List (String × String)) :
    l.foldl
      (fun acc p =>
        if !(p.2 == JsVal.undef) && !(p.2 == JsVal.null) then acc ++ [(p.1, jsString p.2)]
        else acc)
      acc
    = acc ++ (l.filter fun p => !(p.2 == JsVal.undef) && !(p.2 == JsVal.null)).map
        (fun p => (p.1, jsString p.2)) := by
  induction l generalizing acc with
  | nil => simp only [List.foldl_nil, List.filter_nil, List.map_nil, List.append_nil]
  | cons x xs ih =>
    simp only [List.foldl_cons, List.filter_cons]
    cases hx : !(x.2 == JsVal.undef) && !(x.2 == JsVal.null) with
    | false => rw [if_neg Bool.false_ne_true, if_neg Bool.false_ne_true, ih]
    | true =>
      rw [if_pos rfl, if_pos rfl, ih, List.map_cons, List.append_assoc, List.singleton_append]

/-- `serializeParams` as a filter of defined entries mapped through
`String(value)`. -/
theorem serializeParams_eq (ps : List (String × JsVal)) :
    serializeParams ps
      = (ps.filter fun p => !(p.2 == JsVal.undef) && !(p.2 == JsVal.null)).map
          (fun p => (p.1, jsString p.2)) := by
  unfold serializeParams
  rw [serializeParams_go, List.nil_append]

/-! ### Claim theorems -/

/-- C1: the tool catalog and the dispatcher are in bijection: the catalog
names are pairwise distinct and coincide, in order, with the case labels
of `handleToolCall` (so each name has exactly one case and each case
label names exactly one descriptor); a name has a dispatcher case iff it
is a catalog name; and the same holds of the superseded v1 revision's
catalog and switch. -/
theorem catalog_dispatcher_bijection :
    (tools.map ToolDescriptor.name).Nodup
    ∧ tools.map ToolDescriptor.name = handlerCaseLabels
    ∧ (∀ name args, (handleToolCall name args).isOk = true ↔ name ∈ handlerCaseLabels)
    ∧ toolNamesV1.Nodup ∧ toolNamesV1 = handlerCaseLabelsV1 := by
  refine ⟨by decide, by decide, handleToolCall_isOk_iff, by decide, by decide⟩

/-- Witness for C1 at the concrete tool name `search_messages`. -/
theorem catalog_dispatcher_bijection_witness :
    (handleToolCall "search_messages" []).isOk = true :=
  (catalog_dispatcher_bijection.2.2.1 "search_messages" []).mpr (by decide)

/-- C2: the header set computed once at construction follows strict
precedence: a truthy JWT token wins and yields `Authorization: Bearer
<jwt>`; else a truthy API key yields `Authorization: Bearer <apiKey>`;
else a truthy Ory user id yields `X-User-ID` (with `X-User-Email` and
`X-User-Role` present exactly when provided) and no `Authorization`
header; with none configured only the fixed JSON headers are sent. -/
theorem auth_header_precedence (c : ApiClientConfig) :
    (∀ t, c.jwtToken = some t → t ≠ "" →
      headerLookup (buildHeaders c) "Authorization" = some ("Bearer " ++ t))
    ∧ (truthy c.jwtToken = false → ∀ k, c.apiKey = some k → k ≠ "" →
      headerLookup (buildHeaders c) "Authorization" = some ("Bearer " ++ k))
    ∧ (truthy c.jwtToken = false → truthy c.apiKey = false →
        ∀ u, c.oryUserId = some u → u ≠ "" →
      headerLookup (buildHeaders c) "X-User-ID" = some u
      ∧ headerLookup (buildHeaders c) "Authorization" = none
      ∧ (∀ e, c.oryUserEmail = some e → e ≠ "" →
          headerLookup (buildHeaders c) "X-User-Email" = some e)
      ∧ (truthy c.oryUserEmail = false →
          headerLookup (buildHeaders c) "X-User-Email" = none)
      ∧ (∀ r, c.oryUserRole = some r → r ≠ "" →
          headerLookup (buildHeaders c) "X-User-Role" = some r)
      ∧ (truthy c.oryUserRole = false →
          headerLookup (buildHeaders c) "X-User-Role" = none))
    ∧ (truthy c.jwtToken = false → truthy c.apiKey = false → truthy c.oryUserId = false →
      buildHeaders c = [("Content-Type", "application/json"), ("Accept", "application/json")]) := by
  refine ⟨?_, ?_, ?_, ?_⟩
  · intro t ht htne
    have hT : truthy (some t) = true := by simp [truthy, htne]
    simp [buildHeaders, headerLookup, ht, hT]
  · intro hjwt k hk hkne
    have hK : truthy (some k) = true := by simp [truthy, hkne]
    simp [buildHeaders, headerLookup, hjwt, hk, hK]
  · intro hjwt hkey u hu hune
    have hU : truthy (some u) = true := by simp [truthy, hune]
    refine ⟨?_, ?_, ?_, ?_, ?_, ?_⟩
    · cases hem : truthy c.oryUserEmail <;> cases hro : truthy c.oryUserRole <;>
        simp [buildHeaders, headerLookup, hjwt, hkey, hu, hU, hem, hro]
    · cases hem : truthy c.oryUserEmail <;> cases hro : truthy c.oryUserRole <;>
        simp [buildHeaders, headerLookup, hjwt, hkey, hu, hU, hem, hro]
    · intro e he hene
      have hE : truthy (some e) = true := by simp [truthy, hene]
      cases hro : truthy c.oryUserRole <;>
        simp [buildHeaders, headerLookup, hjwt, hkey, hu, hU, he, hE, hro]
    · intro hem
      cases hro : truthy c.oryUserRole <;>
        simp [buildHeaders, headerLookup, hjwt, hkey, hu, hU, hem, hro]
    · intro r hr hrne
      have hR : truthy (some r) = true := by simp [truthy, hrne]
      cases hem : truthy c.oryUserEmail <;>
        simp [buildHeaders, headerLookup, hjwt, hkey, hu, hU, hr, hR, hem]
    · intro hro
      cases hem : truthy c.oryUserEmail <;>
        simp [buildHeaders, headerLookup, hjwt, hkey, hu, hU, hem, hro]
  · intro hjwt hkey hid
    simp [buildHeaders, hjwt, hkey, hid]

/-- Witness for C2: a JWT-configured client sends `Authorization: Bearer
jwt-secret` even when an API key is also configured. -/
theorem auth_header_precedence_witness :
    headerLookup
      (buildHeaders
        { baseUrl := "http://localhost:8000", apiKey := some "ak_123",
          jwtToken := some "jwt-secret", oryUserId := none,
          oryUserEmail := none, oryUserRole := none })
      "Authorization" = some ("Bearer " ++ "jwt-secret") :=
  (auth_header_precedence _).1 "jwt-secret" rfl (by decide)

/-- C3: calling any tool name with no dispatcher case returns, for every
argument bag and every remote behaviour, an in-band response whose
content is the single text block `Error: Unknown tool: <name>` with
`isError` set; the handler is a total function, so the server does not
crash. -/
theorem unknown_tool_error (remote : ApiRequest → HttpResponse) (name : String) (args : Args)
    (h : name ∉ handlerCaseLabels) :
    callToolHandler remote name args
      = { content := [⟨"text", "Error: " ++ ("Unknown tool: " ++ name)⟩], isError := true } := by
  unfold callToolHandler
  rw [handleToolCall_unknown name args h]
  rfl

/-- Witness for C3: the undefined tool name `frobnicate` yields exactly
`Error: Unknown tool: frobnicate`. -/
theorem unknown_tool_error_witness :
    callToolHandler (fun _ => ⟨200, "ok"⟩) "frobnicate" []
      = { content := [⟨"text", "Error: Unknown tool: frobnicate"⟩], isError := true } :=
  (unknown_tool_error (fun _ => ⟨200, "ok"⟩) "frobnicate" [] (by decide)).trans (by decide)

/-- C4: a client call whose HTTP response has non-2xx status `s` and body
`b` fails with the message `API Error <s>: <b>` exactly, and the
transport surfaces it in-band as `Error: API Error <s>: <b>` with
`isError` set. -/
theorem api_error_message :
    (∀ r : HttpResponse, respOk r = false →
      apiFetch r = .error ("API Error " ++ toString r.status ++ ": " ++ r.body))
    ∧ (∀ (remote : ApiRequest → HttpResponse) name args req,
        handleToolCall name args = .ok req → respOk (remote req) = false →
        callToolHandler remote name args
          = { content :=
                [⟨"text", "Error: " ++ ("API Error " ++ toString (remote req).status
                    ++ ": " ++ (remote req).body)⟩],
              isError := true }) := by
  constructor
  · intro r hr
    simp [apiFetch, hr]
  · intro remote name args req hok hr
    unfold callToolHandler
    rw [hok]
    simp [Except.bind, apiFetch, hr]

/-- Witness for C4, end-to-end scenario 4: a 404 with body `not found`
yields exactly `Error: API Error 404: not found`. -/
theorem api_error_message_witness :
    callToolHandler (fun _ => ⟨404, "not found"⟩) "get_system_health" []
      = { content := [⟨"text", "Error: API Error 404: not found"⟩], isError := true } :=
  (api_error_message.2 (fun _ => ⟨404, "not found"⟩) "get_system_health" []
      (OsintApiClient.getHealth) (by decide) (by decide)).trans (by decide)

/-- C5: a parameter is serialized into the query string iff its value is
neither `undefined` nor `null`; defined values pass through
`String(value)`, so `false` serializes as `false` and `0` as `0`. -/
theorem query_param_serialization :
    (∀ ps : List (String × JsVal),
      serializeParams ps
        = (ps.filter fun p => !(p.2 == JsVal.undef) && !(p.2 == JsVal.null)).map
            (fun p => (p.1, jsString p.2)))
    ∧ jsString (JsVal.bool false) = "false" ∧ jsString (JsVal.num 0) = "0" :=
  ⟨serializeParams_eq, rfl, rfl⟩

/-- Witness for C5: `false` and `0` are kept, `undefined` and `null` are
dropped. -/
theorem query_param_serialization_witness :
    serializeParams
      [("a", JsVal.bool false), ("b", JsVal.undef), ("c", JsVal.num 0), ("d", JsVal.null)]
      = [("a", "false"), ("c", "0")] :=
  (query_param_serialization.1
      [("a", JsVal.bool false), ("b", JsVal.undef), ("c", JsVal.num 0), ("d", JsVal.null)]).trans
    (by decide)

/-- C6 counterexample: contrary to the claim, the server registers no
handler for listing or fetching resources or prompts: none of the four
resource/prompt handler kinds is registered. -/
theorem resources_prompts_not_served_cex :
    McpHandler.listResources ∉ registeredHandlers
    ∧ McpHandler.readResource ∉ registeredHandlers
    ∧ McpHandler.listPrompts ∉ registeredHandlers
    ∧ McpHandler.getPrompt ∉ registeredHandlers := by
  decide

/-- C6 amended: the transport registers exactly the two tool handlers
(list-tools and call-tool) and declares only the tools capability; the
in-memory prompt table exists (its lookup function expands a known prompt
name) but is not served by any registered handler. -/
theorem registered_handlers_tools_only :
    registeredHandlers = [.listTools, .callTool]
    ∧ serverCapabilities.resources = false
    ∧ serverCapabilities.prompts = false
    ∧ getPromptContent "platform_health_check" [] ≠ "Unknown prompt: platform_health_check" := by
  refine ⟨rfl, rfl, rfl, by decide⟩

/-- C7 counterexample: contrary to the claim, no tool name dispatches to
the POST-based comment-translation trigger (or any POST at all): there is
no dispatcher input whose issued request is a POST. -/
theorem dispatcher_no_post_cex :
    ¬ ∃ name args req, handleToolCall name args = .ok req ∧ req.method = .POST := by
  rintro ⟨name, args, req, hr, hm⟩
  rw [handleToolCall_method_get name args req hr] at hm
  exact HttpMethod.noConfusion hm

/-- C7 amended: every dispatcher binding issues a GET to its own endpoint
path (the 71 paths issued at a fixed argument bag are pairwise distinct);
the client defines one POST-based method, the comment-translation trigger
`translateComment`, but no dispatcher binding invokes it. -/
theorem dispatcher_all_get :
    (∀ name args req, handleToolCall name args = .ok req → req.method = .GET)
    ∧ (∀ cid, (OsintApiClient.translateComment cid).method = .POST)
    ∧ (handlerCaseLabels.map fun t =>
        match handleToolCall t [] with
        | .ok r => r.path
        | .error e => e).Nodup := by
  refine ⟨handleToolCall_method_get, fun _ => rfl, by decide⟩

/-- Witness for C7 at the concrete tool name `get_system_health`. -/
theorem dispatcher_all_get_witness :
    (OsintApiClient.getHealth).method = HttpMethod.GET :=
  dispatcher_all_get.1 "get_system_health" [] OsintApiClient.getHealth (by decide)

/-- C8: invoking `get_entity` with a source and an entity id issues
exactly one GET whose path interpolates the source and then the entity id
in sequence (`/api/entities/<source>/<entity_id>`), carrying only the
declared `include_linked` query parameter. -/
theorem get_entity_path (source entityId : String) (args : Args)
    (hs : getArg args "source" = .str source)
    (he : getArg args "entity_id" = .str entityId) :
    handleToolCall "get_entity" args
      = .ok { method := .GET,
              path := "/api/entities/" ++ source ++ "/" ++ entityId,
              params := [("include_linked", getArg args "include_linked")] } := by
  have hred : handleToolCall "get_entity" args
      = .ok (OsintApiClient.getEntity (getArg args "source") (getArg args "entity_id")
          [("include_linked", getArg args "include_linked")]) := rfl
  rw [hred, hs, he]
  rfl

/-- Witness for C8, end-to-end scenario 3: `get_entity` with
`{source: "curated", entity_id: "Q12345"}` issues one GET to
`/api/entities/curated/Q12345`. -/
theorem get_entity_path_witness :
    handleToolCall "get_entity" [("source", .str "curated"), ("entity_id", .str "Q12345")]
      = .ok { method := .GET, path := "/api/entities/curated/Q12345",
              params := [("include_linked", JsVal.undef)] } :=
  (get_entity_path "curated" "Q12345"
      [("source", .str "curated"), ("entity_id", .str "Q12345")] (by decide) (by decide)).trans
    (by decide)

/-- C9 counterexample: contrary to the claim, the `get_message_timeline`
binding reads a field its schema does not declare: two argument bags that
agree on every declared schema property (differing only in
`similarity_threshold`) produce different dispatched requests. -/
theorem timeline_reads_undeclared_cex :
    (∀ k ∈ schemaProps "get_message_timeline",
      getArg [("message_id", JsVal.num 1), ("similarity_threshold", JsVal.num 5)] k
        = getArg [("message_id", JsVal.num 1)] k)
    ∧ handleToolCall "get_message_timeline"
        [("message_id", JsVal.num 1), ("similarity_threshold", JsVal.num 5)]
      ≠ handleToolCall "get_message_timeline" [("message_id", JsVal.num 1)] := by
  decide

/-- C9 amended: every dispatcher binding extracts from the argument bag
only the fields its tool's declared `inputSchema` properties name, except
`get_message_timeline`, which additionally reads the undeclared
`similarity_threshold`: the dispatched call depends only on the bag's
values at `bindingReadKeys`. -/
theorem binding_reads_declared_fields (name : String) (a₁ a₂ : Args)
    (h : ∀ k ∈ bindingReadKeys name, getArg a₁ k = getArg a₂ k) :
    handleToolCall name a₁ = handleToolCall name a₂ := by
  unfold handleToolCall
  rcases hfc : dispatchCases.find? (fun c => c.1 == name) with _ | c
  · rw [hfc]
  · rw [hfc]
    obtain ⟨label, f⟩ := c
    have hl : label = name := by simpa using List.find?_some hfc
    subst hl
    exact congrArg Except.ok
      (dispatchCases_reads label f (List.mem_of_find?_eq_some hfc) a₁ a₂ h)

/-- Witness for C9: `get_message` ignores argument-bag keys outside its
declared schema. -/
theorem binding_reads_declared_fields_witness :
    handleToolCall "get_message" [("message_id", JsVal.num 7), ("extra", JsVal.str "x")]
      = handleToolCall "get_message" [("unrelated", JsVal.bool true), ("message_id", JsVal.num 7)] :=
  binding_reads_declared_fields "get_message"
    [("message_id", JsVal.num 7), ("extra", JsVal.str "x")]
    [("unrelated", JsVal.bool true), ("message_id", JsVal.num 7)]
    (by decide)

/-- Each prompt template depends only on the argument keys it
references. -/
theorem promptCases_reads (label : String) (f : List (String × String) → String)
    (hcs : (label, f) ∈ promptCases) (a₁ a₂ : List (String × String))
    (h : ∀ k ∈ promptRefKeys label, promptArg a₁ k = promptArg a₂ k) :
    f a₁ = f a₂ := by
  simp only [promptCases, List.mem_cons, List.not_mem_nil, or_false,
    Prod.mk.injEq] at hcs
  rcases hcs with ⟨rfl, rfl⟩ | hcs
  · rw [show promptRefKeys "investigate_entity" = ["entity_name", "entity_type"] from rfl] at h
    beta_reduce
    rw [h "entity_name" (List.mem_cons_self _ _), h "entity_type" (List.mem_cons_of_mem _ (List.mem_cons_self _ _))]
  rcases hcs with ⟨rfl, rfl⟩ | hcs
  · rw [show promptRefKeys "validate_claim" = ["message_id"] from rfl] at h
    beta_reduce
    rw [h "message_id" (List.mem_cons_self _ _)]
  rcases hcs with ⟨rfl, rfl⟩ | hcs
  · rw [show promptRefKeys "track_event" = ["event_id", "search_query"] from rfl] at h
    beta_reduce
    rw [h "event_id" (List.mem_cons_self _ _), h "search_query" (List.mem_cons_of_mem _ (List.mem_cons_self _ _))]
  rcases hcs with ⟨rfl, rfl⟩ | hcs
  · rw [show promptRefKeys "analyze_channel" = ["channel_id"] from rfl] at h
    beta_reduce
    rw [h "channel_id" (List.mem_cons_self _ _)]
  rcases hcs with ⟨rfl, rfl⟩ | hcs
  · rw [show promptRefKeys "trace_narrative" = ["message_id", "search_query"] from rfl] at h
    beta_reduce
    rw [h "message_id" (List.mem_cons_self _ _), h "search_query" (List.mem_cons_of_mem _ (List.mem_cons_self _ _))]
  rcases hcs with ⟨rfl, rfl⟩ | hcs
  · rw [show promptRefKeys "daily_briefing" = ["hours", "focus_topic"] from rfl] at h
    beta_reduce
    rw [h "hours" (List.mem_cons_self _ _), h "focus_topic" (List.mem_cons_of_mem _ (List.mem_cons_self _ _))]
  rcases hcs with ⟨rfl, rfl⟩ | hcs
  · rw [show promptRefKeys "geographic_sitrep" = ["location", "days"] from rfl] at h
    beta_reduce
    rw [h "location" (List.mem_cons_self _ _), h "days" (List.mem_cons_of_mem _ (List.mem_cons_self _ _))]
  rcases hcs with ⟨rfl, rfl⟩ | hcs
  · rfl
  rcases hcs with ⟨rfl, rfl⟩ | hcs
  · rw [show promptRefKeys "find_viral_content" = ["days", "topic"] from rfl] at h
    beta_reduce
    rw [h "days" (List.mem_cons_self _ _), h "topic" (List.mem_cons_of_mem _ (List.mem_cons_self _ _))]
  obtain ⟨rfl, rfl⟩ := hcs
  rw [show promptRefKeys "discover_connections" = ["start_entity", "start_channel"] from rfl] at h
  beta_reduce
  rw [h "start_entity" (List.mem_cons_self _ _), h "start_channel" (List.mem_cons_of_mem _ (List.mem_cons_self _ _))]

/-- C10: the expanded prompt text depends only on the argument keys the
prompt's template references: argument records that agree on
`promptRefKeys name` expand identically, so unrelated keys never affect
the output. -/
theorem prompt_content_referenced_keys_only (name : String)
    (a₁ a₂ : List (String × String))
    (h : ∀ k ∈ promptRefKeys name, promptArg a₁ k = promptArg a₂ k) :
    getPromptContent name a₁ = getPromptContent name a₂ := by
  unfold getPromptContent
  rcases hfc : promptCases.find? (fun c => c.1 == name) with _ | c
  · rw [hfc]
  · rw [hfc]
    obtain ⟨label, f⟩ := c
    have hl : label = name := by simpa using List.find?_some hfc
    subst hl
    exact promptCases_reads label f (List.mem_of_find?_eq_some hfc) a₁ a₂ h

/-- Witness for C10: `investigate_entity` expands identically for two
records agreeing on `entity_name` and `entity_type` but differing in
unrelated keys. -/
theorem prompt_content_referenced_keys_only_witness :
    getPromptContent "investigate_entity"
      [("entity_name", "Wagner Group"), ("entity_type", "organization"), ("noise", "1")]
      = getPromptContent "investigate_entity"
        [("entity_name", "Wagner Group"), ("entity_type", "organization"), ("other", "2")] :=
  prompt_content_referenced_keys_only "investigate_entity"
    [("entity_name", "Wagner Group"), ("entity_type", "organization"), ("noise", "1")]
    [("entity_name", "Wagner Group"), ("entity_type", "organization"), ("other", "2")]
    (by decide)
